import Mathlib

/-!
Verification of the Recurrence & Reminder Engine of the Todo application
(Phase01_InMemoryPythonConsoleApp), shallowly embedded from
`src/todo/services/task_service.py` and `src/todo/storage/task_store.py`.

Python `datetime.datetime` values are embedded as records of year, month,
day, hour, minute, second and microsecond, with the CPython validity range
(years 1 through 9999).  Fallible Python operations (constructor
`ValueError`, arithmetic `OverflowError`, raised service exceptions) are
embedded with `Option` and `Except`.
-/

namespace Todo

/-- Leap-year rule used by Python's `calendar`/`datetime` machinery. -/
def isLeap (y : Nat) : Bool :=
  y % 4 == 0 && (y % 100 != 0 || y % 400 == 0)

/-- Number of days of month `m` of year `y` (Gregorian calendar, as CPython). -/
def daysInMonth (y m : Nat) : Nat :=
  if m == 2 then (if isLeap y then 29 else 28)
  else if m == 4 || m == 6 || m == 9 || m == 11 then 30
  else 31

/-- Embedding of a Python `datetime.datetime` value (naive, no timezone). -/
structure DateTime where
  year : Nat
  month : Nat
  day : Nat
  hour : Nat
  minute : Nat
  second : Nat
  microsecond : Nat
deriving DecidableEq, Repr

/-- The CPython validity range of `datetime.datetime` components:
`MINYEAR = 1`, `MAXYEAR = 9999`, months 1-12, days 1-last day of month. -/
def DateTime.Valid (dt : DateTime) : Prop :=
  1 ≤ dt.year ∧ dt.year ≤ 9999 ∧ 1 ≤ dt.month ∧ dt.month ≤ 12 ∧
  1 ≤ dt.day ∧ dt.day ≤ daysInMonth dt.year dt.month ∧
  dt.hour ≤ 23 ∧ dt.minute ≤ 59 ∧ dt.second ≤ 59 ∧ dt.microsecond ≤ 999999

instance (dt : DateTime) : Decidable dt.Valid := by
  unfold DateTime.Valid; infer_instance

/-- Embedding of the Python constructor `datetime(year, month, day, hour,
minute)`: seconds and microseconds default to zero, and construction fails
(`ValueError`) outside the valid component ranges. -/
def mkDatetime (y m d h mi : Nat) : Option DateTime :=
  let dt : DateTime := ⟨y, m, d, h, mi, 0, 0⟩
  if dt.Valid then some dt else none

/-- Calendar successor of a date, time of day unchanged.  `none` exactly when
the date is December 31 of year 9999, where CPython arithmetic overflows. -/
def nextDate (dt : DateTime) : Option DateTime :=
  if dt.day < daysInMonth dt.year dt.month then some { dt with day := dt.day + 1 }
  else if dt.month < 12 then some { dt with month := dt.month + 1, day := 1 }
  else if dt.year < 9999 then some { dt with year := dt.year + 1, month := 1, day := 1 }
  else none

/-- Embedding of `datetime + timedelta(days = n)`: `n` calendar days forward,
time of day unchanged, `none` on overflow past year 9999 (`OverflowError`). -/
def addDays : DateTime → Nat → Option DateTime
  | dt, 0 => some dt
  | dt, n + 1 => (nextDate dt).bind (fun d => addDays d n)

/-- Calendar predecessor of a date, time of day unchanged.  `none` exactly at
January 1 of year 1 (CPython `OverflowError`); unreachable in this code base. -/
def prevDate (dt : DateTime) : Option DateTime :=
  if 1 < dt.day then some { dt with day := dt.day - 1 }
  else if 1 < dt.month then
    some { dt with month := dt.month - 1, day := daysInMonth dt.year (dt.month - 1) }
  else if 1 < dt.year then some { dt with year := dt.year - 1, month := 12, day := 31 }
  else none

/-- Modelled from the spec: the `Recurrence` enum `{NONE, DAILY, WEEKLY,
MONTHLY}` of the data model.  Its defining module (`todo/models/task.py` in the
mirrored source predates the recurrence feature) is missing from `src/`; the
enum is named and enumerated by the spec and by every caller in
`task_service.py` and the unit tests. -/
inductive Recurrence where
  | NONE
  | DAILY
  | WEEKLY
  | MONTHLY
deriving DecidableEq, Repr, Inhabited

/-- Modelled from the spec: the `Priority` ordered enum
`{NONE=0, LOW=1, MEDIUM=2, HIGH=3}` of the data model; its defining module is
missing from `src/` (same stale `todo/models/task.py`). -/
inductive Priority where
  | NONE
  | LOW
  | MEDIUM
  | HIGH
deriving DecidableEq, Repr

/-- Errors raised by the embedded code: `ValidationError` and
`TaskNotFoundError` of the service and store, Python `ValueError`, and Python
`OverflowError` from datetime arithmetic. -/
inductive Err where
  | validationError (msg : String)
  | taskNotFoundError (id : Int)
  | valueError (msg : String)
  | overflowError
deriving DecidableEq, Repr

deriving instance DecidableEq for Except

/-- The local `year` of the `MONTHLY` branch of `calculate_next_occurrence`:
the year of the following month (incremented on December rollover). -/
def monthlyTargetYear (dt : DateTime) : Nat :=
  if dt.month + 1 > 12 then dt.year + 1 else dt.year

/-- The local `month` of the `MONTHLY` branch of `calculate_next_occurrence`:
the month number of the following month (January on December rollover). -/
def monthlyTargetMonth (dt : DateTime) : Nat :=
  if dt.month + 1 > 12 then 1 else dt.month + 1

/-- The local `first_of_following_month` of the `MONTHLY` branch: the first
day of the month after the target month, built with the `datetime`
constructor (which raises `ValueError` past year 9999). -/
def firstOfFollowingMonth (dt : DateTime) : Option DateTime :=
  if monthlyTargetMonth dt == 12 then mkDatetime (monthlyTargetYear dt + 1) 1 1 0 0
  else mkDatetime (monthlyTargetYear dt) (monthlyTargetMonth dt + 1) 1 0 0

/-- The local `target_day` of the `MONTHLY` branch: the Feb-29 special case
(dead for any valid input, since the target month of a February date is
March), else the day clamped to the last day of the target month. -/
def monthlyTargetDay (dt : DateTime) (last_day : Nat) : Nat :=
  if (dt.month == 2 && dt.day == 29) && monthlyTargetMonth dt == 2 then last_day
  else min dt.day last_day

/-- Embedding of `calculate_next_occurrence` of
`todo/services/task_service.py` (lines 323-378): raises `ValueError` for
`NONE`; `DAILY`/`WEEKLY` add 1 resp. 7 days via `timedelta`; `MONTHLY`
advances to the following month, computes the last day of the target month as
the day before the first of the month after it, clamps the day, and rebuilds
the result from year, month, day, hour and minute only. -/
def calculate_next_occurrence (due_date : DateTime) (recurrence : Recurrence) :
    Except Err DateTime :=
  match recurrence with
  | .NONE => .error (.valueError "Cannot calculate next occurrence for non-recurring task")
  | .DAILY =>
    match addDays due_date 1 with
    | some d => .ok d
    | none => .error .overflowError
  | .WEEKLY =>
    match addDays due_date 7 with
    | some d => .ok d
    | none => .error .overflowError
  | .MONTHLY =>
    match firstOfFollowingMonth due_date with
    | none => .error (.valueError "year is out of range")
    | some fofm =>
      match prevDate fofm with
      | none => .error .overflowError
      | some last_of_target =>
        match mkDatetime (monthlyTargetYear due_date) (monthlyTargetMonth due_date)
            (monthlyTargetDay due_date last_of_target.day) due_date.hour due_date.minute with
        | some d => .ok d
        | none => .error (.valueError "date value out of range")

/-- Python lexicographic comparison of naive datetimes: compare year, month,
day, hour, minute, second, microsecond in order. -/
def DateTime.ltb (a b : DateTime) : Bool :=
  if a.year < b.year then true
  else if b.year < a.year then false
  else if a.month < b.month then true
  else if b.month < a.month then false
  else if a.day < b.day then true
  else if b.day < a.day then false
  else if a.hour < b.hour then true
  else if b.hour < a.hour then false
  else if a.minute < b.minute then true
  else if b.minute < a.minute then false
  else if a.second < b.second then true
  else if b.second < a.second then false
  else if a.microsecond < b.microsecond then true
  else false

/-- Python `a <= b` on datetimes (total order, so `a <= b` is `not (b < a)`). -/
def DateTime.leb (a b : DateTime) : Bool :=
  !(DateTime.ltb b a)

/-- Seconds elapsed since midnight of the same day. -/
def secondsOfDay (dt : DateTime) : Nat :=
  dt.hour * 3600 + dt.minute * 60 + dt.second

/-- Replace the time of day (hour, minute, second) by `r` seconds after
midnight; the date and the microseconds are unchanged. -/
def timeOfDayReplace (dt : DateTime) (r : Nat) : DateTime :=
  { dt with hour := r / 3600, minute := r % 3600 / 60, second := r % 60 }

/-- Embedding of `datetime + timedelta(seconds = k)` (so `timedelta(minutes =
60)` is `addSeconds 3600`): add to the seconds of the day, carry whole days
into the date, microseconds unchanged; `none` on overflow (`OverflowError`). -/
def addSeconds (dt : DateTime) (k : Nat) : Option DateTime :=
  addDays (timeOfDayReplace dt ((secondsOfDay dt + k) % 86400))
    ((secondsOfDay dt + k) / 86400)

/-- Mixed-radix encoding of the date fields; strictly monotone along the
calendar successor for valid dates (month < 13, day < 32). -/
def dateKey (dt : DateTime) : Nat :=
  (dt.year * 13 + dt.month) * 32 + dt.day

/-- Mixed-radix encoding of a full datetime; for valid datetimes its order
agrees with the lexicographic field comparison `DateTime.ltb`. -/
def DateTime.key (dt : DateTime) : Nat :=
  ((((((dt.year * 13 + dt.month) * 32 + dt.day) * 24 + dt.hour) * 60 + dt.minute) * 60
      + dt.second) * 1000000 + dt.microsecond)

/-- Embedding of the `Task` dataclass of `todo/models/task.py`.  The
`id`/`title`/`description`/`completed`/`created_at`/`updated_at` fields are
those of the mirrored module; the `priority`/`tags`/`due_date`/`recurrence`
fields are modelled from the spec data model (the mirrored module predates
them; every caller in `task_service.py` and the tests uses them).  Python
sets of tags are embedded as lists. -/
structure Task where
  id : Int
  title : String
  description : String
  completed : Bool
  priority : Priority
  tags : List String
  due_date : Option DateTime
  recurrence : Recurrence
  created_at : DateTime
  updated_at : Option DateTime
deriving DecidableEq, Repr

/-- Modelled from the spec: the `ReminderSnapshot`/`ReminderResult` record
(`overdue_tasks`, `due_soon_tasks` and their counts); its definition is
missing from the mirrored `todo/services/results.py`, but its four fields are
fixed by the spec and by `tests/unit/test_reminders.py`. -/
structure ReminderResult where
  overdue_tasks : List Task
  due_soon_tasks : List Task
  overdue_count : Nat
  due_soon_count : Nat
deriving DecidableEq, Repr

/-- Embedding of `TaskStore` of `todo/storage/task_store.py`: the dict
`_tasks` becomes a list in insertion order (dict iteration order), plus the
auto-increment counter `_next_id`. -/
structure TaskStore where
  tasks : List Task
  next_id : Int
deriving DecidableEq, Repr

/-- Stable insertion of a task into a list sorted by `created_at`
(placed before the first strictly later element, after equal ones). -/
def orderedInsertTask (t : Task) : List Task → List Task
  | [] => [t]
  | u :: us =>
    if DateTime.leb t.created_at u.created_at then t :: u :: us
    else u :: orderedInsertTask t us

/-- Stable sort by `created_at`, as Python's stable `sorted` in
`TaskStore.get_all`. -/
def sortByCreated : List Task → List Task
  | [] => []
  | t :: ts => orderedInsertTask t (sortByCreated ts)

/-- Embedding of `TaskStore.get_all`: all tasks sorted by creation time
(stable, so insertion order breaks ties). -/
def TaskStore.get_all (s : TaskStore) : List Task :=
  sortByCreated s.tasks

/-- Embedding of `TaskStore.get`: dict lookup by id, `TaskNotFoundError` when
absent. -/
def TaskStore.get (s : TaskStore) (task_id : Int) : Except Err Task :=
  match s.tasks.find? (fun t => t.id == task_id) with
  | some t => .ok t
  | none => .error (.taskNotFoundError task_id)

/-- Embedding of `TaskStore.add`.  The mirrored `task_store.py` predates the
extended fields, so the `priority`/`tags`/`due_date`/`recurrence` parameters
are modelled from the spec (`create(fields) → Task`: repository assigns a
fresh id, `completed = false`, `created_at` now, `updated_at` null); the
title/description validations are those of the mirrored `add`. -/
def TaskStore.add (s : TaskStore) (title description : String) (priority : Priority)
    (tags : List String) (due_date : Option DateTime) (recurrence : Recurrence)
    (now : DateTime) : Except Err (Task × TaskStore) :=
  if title == "" then .error (.valueError "Task title cannot be empty")
  else if title.length > 100 then .error (.valueError "Task title cannot exceed 100 characters")
  else if description.length > 500 then
    .error (.valueError "Task description cannot exceed 500 characters")
  else
    let task : Task :=
      { id := s.next_id, title := title, description := description, completed := false,
        priority := priority, tags := tags, due_date := due_date, recurrence := recurrence,
        created_at := now, updated_at := none }
    .ok (task, { tasks := s.tasks ++ [task], next_id := s.next_id + 1 })

/-- In-place mutation of the stored task with the given id (Python mutates
the shared `Task` object held in the dict; ids are unique in a dict). -/
def TaskStore.replace (s : TaskStore) (task_id : Int) (t : Task) : TaskStore :=
  { s with tasks := s.tasks.map (fun u => if u.id == task_id then t else u) }

/-- Embedding of `TaskStore.mark_complete`: set `completed := true` and
`updated_at := now` on the stored task. -/
def TaskStore.mark_complete (s : TaskStore) (task_id : Int) (now : DateTime) :
    Except Err (Task × TaskStore) :=
  match s.get task_id with
  | .error e => .error e
  | .ok t =>
    let t' := { t with completed := true, updated_at := some now }
    .ok (t', s.replace task_id t')

/-- Embedding of `TaskStore.mark_incomplete`. -/
def TaskStore.mark_incomplete (s : TaskStore) (task_id : Int) (now : DateTime) :
    Except Err (Task × TaskStore) :=
  match s.get task_id with
  | .error e => .error e
  | .ok t =>
    let t' := { t with completed := false, updated_at := some now }
    .ok (t', s.replace task_id t')

/-- Embedding of `TaskStore.toggle`: flip `completed`, set `updated_at`. -/
def TaskStore.toggle (s : TaskStore) (task_id : Int) (now : DateTime) :
    Except Err (Task × TaskStore) :=
  match s.get task_id with
  | .error e => .error e
  | .ok t =>
    let t' := { t with completed := !t.completed, updated_at := some now }
    .ok (t', s.replace task_id t')

/-- Embedding of `TaskStore.update`: per-field optional update with the
title/description validations of the mirrored `update`; the extended optional
fields are modelled from the spec (`updateTask`: only fields present in the
partial spec are changed).  Sets `updated_at := now`. -/
def TaskStore.update (s : TaskStore) (task_id : Int) (title description : Option String)
    (completed : Option Bool) (priority : Option Priority) (tags : Option (List String))
    (due_date : Option DateTime) (recurrence : Option Recurrence) (now : DateTime) :
    Except Err (Task × TaskStore) :=
  match s.get task_id with
  | .error e => .error e
  | .ok t =>
    if title.isSome && title.get! == "" then
      .error (.valueError "Task title cannot be empty")
    else if title.isSome && title.get!.length > 100 then
      .error (.valueError "Task title cannot exceed 100 characters")
    else if description.isSome && description.get!.length > 500 then
      .error (.valueError "Task description cannot exceed 500 characters")
    else
      let t' : Task :=
        { t with
          title := title.getD t.title,
          description := description.getD t.description,
          completed := completed.getD t.completed,
          priority := priority.getD t.priority,
          tags := tags.getD t.tags,
          due_date := match due_date with | some d => some d | none => t.due_date,
          recurrence := recurrence.getD t.recurrence,
          updated_at := some now }
      .ok (t', s.replace task_id t')

/-- Renumber tasks with consecutive ids starting at `i`
(the loop body of `TaskStore._reindex`). -/
def reindexNumber : List Task → Int → List Task
  | [], _ => []
  | t :: ts, i => { t with id := i } :: reindexNumber ts (i + 1)

/-- Embedding of `TaskStore._reindex`: rebuild the dict with sequential ids
1..n assigned in creation order, and reset `_next_id` to n + 1. -/
def TaskStore.reindex (s : TaskStore) : TaskStore :=
  if s.tasks.isEmpty then { s with next_id := 1 }
  else
    let sorted := s.get_all
    let newTasks := reindexNumber sorted 1
    { tasks := newTasks, next_id := Int.ofNat newTasks.length + 1 }

/-- Embedding of `TaskStore.delete`: raise `TaskNotFoundError` if the id is
absent, else remove the task, re-index the remaining tasks, and return
`true`. -/
def TaskStore.delete (s : TaskStore) (task_id : Int) : Except Err (Bool × TaskStore) :=
  if s.tasks.all (fun t => !(t.id == task_id)) then .error (.taskNotFoundError task_id)
  else
    .ok (true, TaskStore.reindex { s with tasks := s.tasks.filter (fun t => !(t.id == task_id)) })

namespace TaskService

/-- Embedding of `TaskService._validate_and_process_tags`: strip and
lower-case each tag, drop empties, reject tags longer than 20 characters,
deduplicate.  (The Python error message interpolates the offending tag.) -/
def validate_and_process_tags : List String → List String → Except Err (List String)
  | processed, [] => .ok processed
  | processed, tag :: rest =>
    let clean := tag.trim.toLower
    if clean == "" then validate_and_process_tags processed rest
    else if clean.length > 20 then .error (.validationError "Tag exceeds 20 characters")
    else validate_and_process_tags
      (if processed.contains clean then processed else processed ++ [clean]) rest

/-- Embedding of `TaskService.get_task`: reject non-positive ids with
`ValidationError` before consulting the store. -/
def get_task (s : TaskStore) (task_id : Int) : Except Err Task × TaskStore :=
  if task_id ≤ 0 then (.error (.validationError "Invalid task ID"), s)
  else (s.get task_id, s)

/-- Embedding of `TaskService.update_task` (no recurrence parameter; the
store is called with no recurrence change). -/
def update_task (s : TaskStore) (task_id : Int) (title description : Option String)
    (completed : Option Bool) (priority : Option Priority) (tags : Option (List String))
    (due_date : Option DateTime) (now : DateTime) : Except Err Task × TaskStore :=
  if task_id ≤ 0 then (.error (.validationError "Invalid task ID"), s)
  else if title.isSome && title.get!.trim == "" then
    (.error (.validationError "Title cannot be empty"), s)
  else if title.isSome && title.get!.trim.length > 100 then
    (.error (.validationError "Title cannot exceed 100 characters"), s)
  else if description.isSome && description.get!.trim.length > 500 then
    (.error (.validationError "Description cannot exceed 500 characters"), s)
  else
    match (match tags with
           | some ts => (validate_and_process_tags [] ts).map some
           | none => .ok none) with
    | .error e => (.error e, s)
    | .ok processed_tags =>
      match s.update task_id (title.map String.trim) (description.map String.trim)
          completed priority processed_tags due_date none now with
      | .error e => (.error e, s)
      | .ok (t, s1) => (.ok t, s1)

/-- Embedding of `TaskService.delete_task`. -/
def delete_task (s : TaskStore) (task_id : Int) : Except Err Bool × TaskStore :=
  if task_id ≤ 0 then (.error (.validationError "Invalid task ID"), s)
  else
    match s.delete task_id with
    | .error e => (.error e, s)
    | .ok (b, s1) => (.ok b, s1)

/-- Embedding of `TaskService.toggle_task_completion`. -/
def toggle_task_completion (s : TaskStore) (task_id : Int) (now : DateTime) :
    Except Err Task × TaskStore :=
  if task_id ≤ 0 then (.error (.validationError "Invalid task ID"), s)
  else
    match s.toggle task_id now with
    | .error e => (.error e, s)
    | .ok (t, s1) => (.ok t, s1)

/-- Embedding of `TaskService.mark_task_complete`. -/
def mark_task_complete (s : TaskStore) (task_id : Int) (now : DateTime) :
    Except Err Task × TaskStore :=
  if task_id ≤ 0 then (.error (.validationError "Invalid task ID"), s)
  else
    match s.mark_complete task_id now with
    | .error e => (.error e, s)
    | .ok (t, s1) => (.ok t, s1)

/-- Embedding of `TaskService.mark_task_incomplete`. -/
def mark_task_incomplete (s : TaskStore) (task_id : Int) (now : DateTime) :
    Except Err Task × TaskStore :=
  if task_id ≤ 0 then (.error (.validationError "Invalid task ID"), s)
  else
    match s.mark_incomplete task_id now with
    | .error e => (.error e, s)
    | .ok (t, s1) => (.ok t, s1)

/-- Embedding of `TaskService.add_task_with_recurrence` (lines 224-257):
trim, validate title/description, reject a non-NONE recurrence without a due
date, validate tags, then delegate to the store. -/
def add_task_with_recurrence (s : TaskStore) (title description : String)
    (priority : Priority) (tags : List String) (due_date : Option DateTime)
    (recurrence : Recurrence) (now : DateTime) : Except Err Task × TaskStore :=
  let title := title.trim
  let description := description.trim
  if title == "" then (.error (.validationError "Title is required"), s)
  else if title.length > 100 then
    (.error (.validationError "Title cannot exceed 100 characters"), s)
  else if description.length > 500 then
    (.error (.validationError "Description cannot exceed 500 characters"), s)
  else if recurrence != .NONE && due_date.isNone then
    (.error (.validationError "Recurring tasks must have a due date"), s)
  else
    match validate_and_process_tags [] tags with
    | .error e => (.error e, s)
    | .ok processed =>
      match s.add title description priority processed due_date recurrence now with
      | .error e => (.error e, s)
      | .ok (t, s1) => (.ok t, s1)

/-- Embedding of `TaskService.update_task_with_recurrence` (lines 259-303):
id guard, title/description validation, then — when setting a non-NONE
recurrence with no due date in the update — require a due date on the
existing task; then tags and the store update. -/
def update_task_with_recurrence (s : TaskStore) (task_id : Int)
    (title description : Option String) (completed : Option Bool)
    (priority : Option Priority) (tags : Option (List String))
    (due_date : Option DateTime) (recurrence : Option Recurrence) (now : DateTime) :
    Except Err Task × TaskStore :=
  if task_id ≤ 0 then (.error (.validationError "Invalid task ID"), s)
  else if title.isSome && title.get!.trim == "" then
    (.error (.validationError "Title cannot be empty"), s)
  else if title.isSome && title.get!.trim.length > 100 then
    (.error (.validationError "Title cannot exceed 100 characters"), s)
  else if description.isSome && description.get!.trim.length > 500 then
    (.error (.validationError "Description cannot exceed 500 characters"), s)
  else
    match ((if recurrence.isSome && recurrence.get! != .NONE && due_date.isNone then
             match s.get task_id with
             | .error e => .error e
             | .ok existing_task =>
               if existing_task.due_date.isNone then
                 .error (.validationError "Recurring tasks must have a due date")
               else .ok ()
            else .ok ()) : Except Err Unit) with
    | .error e => (.error e, s)
    | .ok _ =>
      match (match tags with
             | some ts => (validate_and_process_tags [] ts).map some
             | none => .ok none) with
      | .error e => (.error e, s)
      | .ok processed_tags =>
        match s.update task_id (title.map String.trim) (description.map String.trim)
            completed priority processed_tags due_date recurrence now with
        | .error e => (.error e, s)
        | .ok (t, s1) => (.ok t, s1)

end TaskService

/-- Embedding of the module-level `complete_task` (lines 381-413): fetch the
task, mark it complete, and — when it recurs and has a due date — compute the
next occurrence and clone the task with the new due date.  An exception from
the next-occurrence computation or the add propagates, with the completion
already applied to the store (no rollback in the source). -/
def complete_task (s : TaskStore) (task_id : Int) (now : DateTime) :
    Except Err (Task × Option Task) × TaskStore :=
  match s.get task_id with
  | .error e => (.error e, s)
  | .ok task =>
    match s.mark_complete task_id now with
    | .error e => (.error e, s)
    | .ok (completed_task, s1) =>
      match task.due_date with
      | some d =>
        if task.recurrence != .NONE then
          match calculate_next_occurrence d task.recurrence with
          | .error e => (.error e, s1)
          | .ok next_due =>
            match s1.add task.title task.description task.priority task.tags
                (some next_due) task.recurrence now with
            | .error e => (.error e, s1)
            | .ok (new_task, s2) => (.ok (completed_task, some new_task), s2)
        else (.ok (completed_task, none), s1)
      | none => (.ok (completed_task, none), s1)

/-- Embedding of the date-only test `task.due_date.time() == time(0, 0, 0)`:
the time of day (including microseconds) is exactly midnight. -/
def isMidnight (d : DateTime) : Bool :=
  d.hour == 0 && d.minute == 0 && d.second == 0 && d.microsecond == 0

/-- The loop body of `check_reminders` (lines 431-448): skip completed tasks,
tasks without a due date, and date-only tasks (time exactly midnight); then
classify as overdue (`due < now`) or due soon (`now <= due < threshold`). -/
def reminderClassify (now soon_threshold : DateTime) (acc : List Task × List Task)
    (task : Task) : List Task × List Task :=
  if task.completed then acc
  else
    match task.due_date with
    | none => acc
    | some d =>
      if isMidnight d then acc
      else if d.ltb now then (acc.1 ++ [task], acc.2)
      else if now.leb d && d.ltb soon_threshold then (acc.1, acc.2 ++ [task])
      else acc

/-- Characterization of membership in the overdue bucket: an uncompleted task
with a timed due date strictly before `now`. -/
def overduePred (now : DateTime) (t : Task) : Bool :=
  !t.completed &&
    (match t.due_date with
     | none => false
     | some d => !(isMidnight d) && d.ltb now)

/-- Characterization of membership in the due-soon bucket: an uncompleted
task with a timed due date not before `now` and strictly before the
threshold. -/
def dueSoonPred (now thr : DateTime) (t : Task) : Bool :=
  !t.completed &&
    (match t.due_date with
     | none => false
     | some d => !(isMidnight d) && !(d.ltb now) && (now.leb d && d.ltb thr))

/-- Embedding of `check_reminders` (lines 416-455): `soon_threshold` is `now
+ timedelta(minutes=60)`; iterate all tasks, classify, and return the two
lists with their counts.  The store is returned unchanged: the source
performs no write. -/
def check_reminders (s : TaskStore) (now : DateTime) :
    Except Err ReminderResult × TaskStore :=
  match addSeconds now 3600 with
  | none => (.error .overflowError, s)
  | some soon_threshold =>
    let pair := s.get_all.foldl (reminderClassify now soon_threshold) ([], [])
    (.ok { overdue_tasks := pair.1, due_soon_tasks := pair.2,
           overdue_count := pair.1.length, due_soon_count := pair.2.length }, s)

/-- Store well-formedness: ids are positive, below `next_id`, and pairwise
distinct, and stored titles/descriptions satisfy the `Task` dataclass
validations (guaranteed at creation by `__post_init__`). -/
def WF (s : TaskStore) : Prop :=
  (∀ t ∈ s.tasks, 0 < t.id ∧ t.id < s.next_id) ∧
  s.tasks.Pairwise (fun a b => a.id ≠ b.id) ∧
  (∀ t ∈ s.tasks, t.title ≠ "" ∧ t.title.length ≤ 100 ∧ t.description.length ≤ 500)

instance (s : TaskStore) : Decidable (WF s) := by
  unfold WF; infer_instance

/-- Sample wall-clock instant used by concrete reminder scenarios. -/
def c3Now : DateTime := ⟨2025, 6, 1, 12, 0, 0, 0⟩

/-- Exactly 60 minutes after `c3Now`. -/
def c3Thr : DateTime := ⟨2025, 6, 1, 13, 0, 0, 0⟩

/-- 60 minutes and one second after `c3Now`. -/
def c3After : DateTime := ⟨2025, 6, 1, 13, 0, 1, 0⟩

/-- One second before `c3Now`. -/
def c3Prev : DateTime := ⟨2025, 6, 1, 11, 59, 59, 0⟩

/-- Uncompleted task due exactly at the sixty-minute threshold. -/
def c3TaskAtThr : Task :=
  ⟨1, "At threshold", "", false, .NONE, [], some c3Thr, .NONE, ⟨2025, 6, 1, 8, 0, 0, 0⟩, none⟩

/-- Uncompleted task due exactly at `c3Now`. -/
def c3TaskAtNow : Task :=
  ⟨2, "At now", "", false, .NONE, [], some c3Now, .NONE, ⟨2025, 6, 1, 8, 0, 1, 0⟩, none⟩

/-- Uncompleted task due one second past the threshold. -/
def c3TaskAfter : Task :=
  ⟨3, "Just after", "", false, .NONE, [], some c3After, .NONE, ⟨2025, 6, 1, 8, 0, 2, 0⟩, none⟩

/-- Uncompleted task due one second before `c3Now`. -/
def c3TaskPrev : Task :=
  ⟨4, "Just before", "", false, .NONE, [], some c3Prev, .NONE, ⟨2025, 6, 1, 8, 0, 3, 0⟩, none⟩

/-- Store holding the four boundary tasks. -/
def c3Store : TaskStore := ⟨[c3TaskAtThr, c3TaskAtNow, c3TaskAfter, c3TaskPrev], 5⟩

/-- The reminder snapshot of `c3Store` at `c3Now`: only the one-second-late
task is overdue and only the task due exactly now is due soon. -/
def c3Res : ReminderResult := ⟨[c3TaskPrev], [c3TaskAtNow], 1, 1⟩

/-- Completed task with an overdue-looking timed due date. -/
def c6TaskCompleted : Task :=
  ⟨1, "Done", "", true, .NONE, [], some ⟨2025, 5, 1, 10, 0, 0, 0⟩, .NONE,
   ⟨2025, 4, 1, 0, 0, 0, 0⟩, none⟩

/-- Uncompleted task without a due date. -/
def c6TaskNoDue : Task :=
  ⟨2, "NoDue", "", false, .NONE, [], none, .NONE, ⟨2025, 4, 1, 0, 0, 1, 0⟩, none⟩

/-- Uncompleted date-only task years in the past. -/
def c6TaskDateOnly : Task :=
  ⟨3, "DateOnly", "", false, .NONE, [], some ⟨2020, 1, 1, 0, 0, 0, 0⟩, .NONE,
   ⟨2025, 4, 1, 0, 0, 2, 0⟩, none⟩

/-- Store holding the three excluded tasks. -/
def c6Store : TaskStore := ⟨[c6TaskCompleted, c6TaskNoDue, c6TaskDateOnly], 4⟩

/-- Timed due date at midnight plus thirty seconds. -/
def c9Due : DateTime := ⟨2025, 3, 5, 0, 0, 30, 0⟩

/-- Monthly advance of `c9Due`: exactly midnight (seconds dropped). -/
def c9Next : DateTime := ⟨2025, 4, 5, 0, 0, 0, 0⟩

/-- Task carrying the advanced, now date-only, due date. -/
def c9Task : Task :=
  ⟨1, "Monthly chore", "", false, .NONE, [], some c9Next, .MONTHLY,
   ⟨2025, 3, 5, 0, 0, 0, 0⟩, none⟩

/-- Store holding only `c9Task`. -/
def c9Store : TaskStore := ⟨[c9Task], 2⟩

/-- Due date of the sample recurring task. -/
def c2Due : DateTime := ⟨2025, 6, 2, 9, 0, 0, 0⟩

/-- The daily advance of `c2Due`. -/
def c2NextDue : DateTime := ⟨2025, 6, 3, 9, 0, 0, 0⟩

/-- Sample uncompleted daily-recurring task with a due date. -/
def c2Task : Task :=
  ⟨1, "Daily standup", "Team standup meeting", false, .MEDIUM, ["standup"],
   some c2Due, .DAILY, ⟨2025, 6, 1, 8, 0, 0, 0⟩, none⟩

/-- Store holding only `c2Task`. -/
def c2Store : TaskStore := ⟨[c2Task], 2⟩

/-- Daily-recurring task due on the last representable day, where the
next-occurrence computation overflows. -/
def c2BoundaryTask : Task :=
  ⟨1, "Boundary daily", "", false, .NONE, [], some ⟨9999, 12, 31, 9, 0, 0, 0⟩,
   .DAILY, ⟨2025, 1, 1, 0, 0, 0, 0⟩, none⟩

/-- Store holding only `c2BoundaryTask`. -/
def c2BoundaryStore : TaskStore := ⟨[c2BoundaryTask], 2⟩

/-- Weekly-recurring task whose next occurrence overflows the representable
range. -/
def c7Task : Task :=
  ⟨1, "Weekly report", "", false, .NONE, [], some ⟨9999, 12, 28, 10, 0, 0, 0⟩,
   .WEEKLY, ⟨2025, 1, 1, 0, 0, 0, 0⟩, none⟩

/-- Store holding only `c7Task`. -/
def c7Store : TaskStore := ⟨[c7Task], 2⟩

/-- First sample task (no due date), created first. -/
def c4TaskA : Task :=
  ⟨1, "A", "", false, .NONE, [], none, .NONE, ⟨2025, 1, 1, 0, 0, 0, 0⟩, none⟩

/-- Second sample task, created after `c4TaskA`. -/
def c4TaskB : Task :=
  ⟨2, "B", "", false, .NONE, [], none, .NONE, ⟨2025, 1, 2, 0, 0, 0, 0⟩, none⟩

/-- Store holding `c4TaskA` and `c4TaskB` with ids 1 and 2. -/
def c4Store : TaskStore := ⟨[c4TaskA, c4TaskB], 3⟩

theorem daysInMonth_le31 (y m : Nat) : daysInMonth y m ≤ 31 := by
  unfold daysInMonth isLeap
  repeat' split
  all_goals omega

theorem daysInMonth_ge28 (y m : Nat) : 28 ≤ daysInMonth y m := by
  unfold daysInMonth isLeap
  repeat' split
  all_goals omega

theorem valid_mk {y m d h mi s us : Nat} (h1 : 1 ≤ y) (h2 : y ≤ 9999) (h3 : 1 ≤ m)
    (h4 : m ≤ 12) (h5 : 1 ≤ d) (h6 : d ≤ daysInMonth y m) (h7 : h ≤ 23) (h8 : mi ≤ 59)
    (h9 : s ≤ 59) (h10 : us ≤ 999999) : (⟨y, m, d, h, mi, s, us⟩ : DateTime).Valid :=
  ⟨h1, h2, h3, h4, h5, h6, h7, h8, h9, h10⟩

theorem mkDatetime_eq_some {y m d h mi : Nat}
    (hval : (⟨y, m, d, h, mi, 0, 0⟩ : DateTime).Valid) :
    mkDatetime y m d h mi = some ⟨y, m, d, h, mi, 0, 0⟩ := by
  simp only [mkDatetime]
  rw [if_pos hval]

theorem mkDatetime_some_inv {y m d h mi : Nat} {v : DateTime}
    (hp : mkDatetime y m d h mi = some v) :
    v = ⟨y, m, d, h, mi, 0, 0⟩ ∧ v.Valid := by
  by_cases hval : (⟨y, m, d, h, mi, 0, 0⟩ : DateTime).Valid
  · rw [mkDatetime_eq_some hval] at hp
    cases hp
    exact ⟨rfl, hval⟩
  · simp only [mkDatetime] at hp
    rw [if_neg hval] at hp
    cases hp

theorem calc_monthly_eq (dt : DateTime) {f l r : DateTime}
    (hf : firstOfFollowingMonth dt = some f)
    (hp : prevDate f = some l)
    (hm : mkDatetime (monthlyTargetYear dt) (monthlyTargetMonth dt)
           (monthlyTargetDay dt l.day) dt.hour dt.minute = some r) :
    calculate_next_occurrence dt .MONTHLY = .ok r := by
  unfold calculate_next_occurrence
  simp only [hf, hp, hm]

/-- The general shape of the `MONTHLY` branch on any valid timestamp outside
November and December of year 9999 (where the branch raises `ValueError`):
the following month, with the day clamped to that month's length and the
hour and minute carried over. -/
theorem monthly_formula (dt : DateTime) (hv : dt.Valid)
    (hb : ¬(dt.year = 9999 ∧ 11 ≤ dt.month)) :
    calculate_next_occurrence dt .MONTHLY =
      .ok { year := monthlyTargetYear dt, month := monthlyTargetMonth dt,
            day := min dt.day (daysInMonth (monthlyTargetYear dt) (monthlyTargetMonth dt)),
            hour := dt.hour, minute := dt.minute, second := 0, microsecond := 0 } := by
  obtain ⟨hy1, hy2, hm1, hm2, hd1, hd2, hh, hmi, hs, hus⟩ := hv
  by_cases h12 : dt.month = 12
  · -- December: the target month is January of the following year.
    have hy : dt.year ≤ 9998 := by omega
    have hty : monthlyTargetYear dt = dt.year + 1 := by
      unfold monthlyTargetYear; rw [if_pos (by omega)]
    have htm : monthlyTargetMonth dt = 1 := by
      unfold monthlyTargetMonth; rw [if_pos (by omega)]
    have hfofm : firstOfFollowingMonth dt = some ⟨dt.year + 1, 2, 1, 0, 0, 0, 0⟩ := by
      unfold firstOfFollowingMonth
      rw [htm, hty]
      simp only [show ((1 : Nat) == 12) = false from rfl, Bool.false_eq_true, if_false]
      exact mkDatetime_eq_some (valid_mk (by omega) (by omega) (by omega) (by omega)
        (by omega) (Nat.le_trans (by omega) (daysInMonth_ge28 _ _))
        (by omega) (by omega) (by omega) (by omega))
    have hprev : prevDate ⟨dt.year + 1, 2, 1, 0, 0, 0, 0⟩ =
        some ⟨dt.year + 1, 1, 31, 0, 0, 0, 0⟩ := by
      simp [prevDate, daysInMonth]
    have hdim : daysInMonth (dt.year + 1) 1 = 31 := rfl
    have htd : monthlyTargetDay dt 31 = min dt.day 31 := by
      unfold monthlyTargetDay
      rw [htm]
      simp
    have hmk : mkDatetime (monthlyTargetYear dt) (monthlyTargetMonth dt)
        (monthlyTargetDay dt 31) dt.hour dt.minute =
        some ⟨dt.year + 1, 1, min dt.day 31, dt.hour, dt.minute, 0, 0⟩ := by
      rw [hty, htm, htd]
      exact mkDatetime_eq_some (valid_mk (by omega) (by omega) (by omega) (by omega)
        (by omega) (by rw [hdim]; exact Nat.min_le_right dt.day 31)
        (by omega) (by omega) (by omega) (by omega))
    rw [calc_monthly_eq dt hfofm hprev hmk, hty, htm, hdim]
  · by_cases h11 : dt.month = 11
    · -- November: the target month is December of the same year.
      have hy : dt.year ≤ 9998 := by omega
      have hty : monthlyTargetYear dt = dt.year := by
        unfold monthlyTargetYear; rw [if_neg (by omega)]
      have htm : monthlyTargetMonth dt = 12 := by
        unfold monthlyTargetMonth; rw [if_neg (by omega)]; omega
      have hfofm : firstOfFollowingMonth dt = some ⟨dt.year + 1, 1, 1, 0, 0, 0, 0⟩ := by
        unfold firstOfFollowingMonth
        rw [htm, hty]
        simp only [show ((12 : Nat) == 12) = true from rfl, if_true]
        exact mkDatetime_eq_some (valid_mk (by omega) (by omega) (by omega) (by omega)
          (by omega) (Nat.le_trans (by omega) (daysInMonth_ge28 _ _))
          (by omega) (by omega) (by omega) (by omega))
      have hprev : prevDate ⟨dt.year + 1, 1, 1, 0, 0, 0, 0⟩ =
          some ⟨dt.year, 12, 31, 0, 0, 0, 0⟩ := by
        simp [prevDate]
        omega
      have hdim : daysInMonth dt.year 12 = 31 := rfl
      have htd : monthlyTargetDay dt 31 = min dt.day 31 := by
        unfold monthlyTargetDay
        rw [htm]
        simp
      have hmk : mkDatetime (monthlyTargetYear dt) (monthlyTargetMonth dt)
          (monthlyTargetDay dt 31) dt.hour dt.minute =
          some ⟨dt.year, 12, min dt.day 31, dt.hour, dt.minute, 0, 0⟩ := by
        rw [hty, htm, htd]
        exact mkDatetime_eq_some (valid_mk (by omega) (by omega) (by omega) (by omega)
          (by omega) (by rw [hdim]; exact Nat.min_le_right dt.day 31)
          (by omega) (by omega) (by omega) (by omega))
      rw [calc_monthly_eq dt hfofm hprev hmk, hty, htm, hdim]
    · -- Months 1 through 10: the target month is month + 1, same year.
      have hle : dt.month ≤ 10 := by omega
      have hty : monthlyTargetYear dt = dt.year := by
        unfold monthlyTargetYear; rw [if_neg (by omega)]
      have htm : monthlyTargetMonth dt = dt.month + 1 := by
        unfold monthlyTargetMonth; rw [if_neg (by omega)]
      have hfofm : firstOfFollowingMonth dt =
          some ⟨dt.year, dt.month + 2, 1, 0, 0, 0, 0⟩ := by
        unfold firstOfFollowingMonth
        rw [htm, hty]
        rw [if_neg (by simp only [beq_iff_eq]; omega)]
        exact mkDatetime_eq_some (valid_mk (by omega) (by omega) (by omega) (by omega)
          (by omega) (Nat.le_trans (by omega) (daysInMonth_ge28 _ _))
          (by omega) (by omega) (by omega) (by omega))
      have hprev : prevDate ⟨dt.year, dt.month + 2, 1, 0, 0, 0, 0⟩ =
          some ⟨dt.year, dt.month + 1, daysInMonth dt.year (dt.month + 1), 0, 0, 0, 0⟩ := by
        have h2 : (1 : Nat) < dt.month + 2 := by omega
        simp [prevDate, h2]
      have htd : monthlyTargetDay dt (daysInMonth dt.year (dt.month + 1)) =
          min dt.day (daysInMonth dt.year (dt.month + 1)) := by
        unfold monthlyTargetDay
        rw [htm]
        rw [if_neg ?_]
        simp only [Bool.and_eq_true, beq_iff_eq, not_and]
        omega
      have hmk : mkDatetime (monthlyTargetYear dt) (monthlyTargetMonth dt)
          (monthlyTargetDay dt (daysInMonth dt.year (dt.month + 1))) dt.hour dt.minute =
          some ⟨dt.year, dt.month + 1, min dt.day (daysInMonth dt.year (dt.month + 1)),
                dt.hour, dt.minute, 0, 0⟩ := by
        rw [hty, htm, htd]
        exact mkDatetime_eq_some (valid_mk (by omega) (by omega) (by omega) (by omega)
          (by have := daysInMonth_ge28 dt.year (dt.month + 1); omega)
          (Nat.min_le_right _ _)
          (by omega) (by omega) (by omega) (by omega))
      rw [calc_monthly_eq dt hfofm hprev hmk, hty, htm]

theorem nextDate_time {dt e : DateTime} (h : nextDate dt = some e) :
    e.hour = dt.hour ∧ e.minute = dt.minute ∧ e.second = dt.second ∧
    e.microsecond = dt.microsecond := by
  unfold nextDate at h
  split at h
  · injection h with h
    subst h
    exact ⟨rfl, rfl, rfl, rfl⟩
  · split at h
    · injection h with h
      subst h
      exact ⟨rfl, rfl, rfl, rfl⟩
    · split at h
      · injection h with h
        subst h
        exact ⟨rfl, rfl, rfl, rfl⟩
      · cases h

theorem addDays_time : ∀ (n : Nat) {dt e : DateTime}, addDays dt n = some e →
    e.hour = dt.hour ∧ e.minute = dt.minute ∧ e.second = dt.second ∧
    e.microsecond = dt.microsecond := by
  intro n
  induction n with
  | zero =>
    intro dt e h
    injection h with h
    subst h
    exact ⟨rfl, rfl, rfl, rfl⟩
  | succ n ih =>
    intro dt e h
    unfold addDays at h
    cases hnd : nextDate dt with
    | none => rw [hnd] at h; cases h
    | some d =>
      rw [hnd] at h
      have h1 := nextDate_time hnd
      have h2 : e.hour = d.hour ∧ e.minute = d.minute ∧ e.second = d.second ∧
          e.microsecond = d.microsecond := ih h
      exact ⟨h2.1.trans h1.1, h2.2.1.trans h1.2.1, h2.2.2.1.trans h1.2.2.1,
             h2.2.2.2.trans h1.2.2.2⟩

theorem nextDate_ok {dt : DateTime} (k : Nat) (hk : k ≤ 20) (hv : dt.Valid)
    (hr : dt.year ≤ 9998 ∨ (dt.year = 9999 ∧ dt.month = 1 ∧ dt.day ≤ 1 + k)) :
    ∃ e, nextDate dt = some e ∧ e.Valid ∧
      (e.year ≤ 9998 ∨ (e.year = 9999 ∧ e.month = 1 ∧ e.day ≤ 1 + (k + 1))) := by
  obtain ⟨hy1, hy2, hm1, hm2, hd1, hd2, hh, hmi, hs, hus⟩ := hv
  unfold nextDate
  by_cases h1 : dt.day < daysInMonth dt.year dt.month
  · rw [if_pos h1]
    refine ⟨_, rfl, valid_mk hy1 hy2 hm1 hm2 (by omega) (by omega) hh hmi hs hus, ?_⟩
    cases hr with
    | inl h => exact Or.inl h
    | inr h =>
      right
      refine ⟨h.1, h.2.1, ?_⟩
      show dt.day + 1 ≤ 1 + (k + 1)
      omega
  · rw [if_neg h1]
    by_cases h2 : dt.month < 12
    · rw [if_pos h2]
      refine ⟨_, rfl, valid_mk hy1 hy2 (by omega) (by omega) (by omega)
        (Nat.le_trans (by omega) (daysInMonth_ge28 _ _)) hh hmi hs hus, ?_⟩
      cases hr with
      | inl h => exact Or.inl h
      | inr h =>
        exfalso
        have := daysInMonth_ge28 dt.year dt.month
        omega
    · rw [if_neg h2]
      have hy : dt.year < 9999 := by
        cases hr with
        | inl h => omega
        | inr h => omega
      rw [if_pos hy]
      refine ⟨_, rfl, valid_mk (by omega) (by omega) (by omega) (by omega) (by omega)
        (Nat.le_trans (by omega) (daysInMonth_ge28 _ _)) hh hmi hs hus, ?_⟩
      by_cases h3 : dt.year + 1 ≤ 9998
      · exact Or.inl h3
      · right
        refine ⟨?_, rfl, ?_⟩
        · show dt.year + 1 = 9999
          omega
        · show (1 : Nat) ≤ 1 + (k + 1)
          omega

theorem addDays_ok : ∀ (n k : Nat), k + n ≤ 21 → ∀ dt : DateTime, dt.Valid →
    (dt.year ≤ 9998 ∨ (dt.year = 9999 ∧ dt.month = 1 ∧ dt.day ≤ 1 + k)) →
    ∃ e, addDays dt n = some e ∧ e.Valid := by
  intro n
  induction n with
  | zero =>
    intro k _ dt hv _
    exact ⟨dt, rfl, hv⟩
  | succ n ih =>
    intro k hk dt hv hr
    obtain ⟨e, he, hev, her⟩ := nextDate_ok k (by omega) hv hr
    obtain ⟨f, hf, hfv⟩ := ih (k + 1) (by omega) e hev her
    refine ⟨f, ?_, hfv⟩
    unfold addDays
    rw [he]
    exact hf

theorem calc_daily_ok (dt : DateTime) (hv : dt.Valid) (hy : dt.year ≤ 9998) :
    ∃ e, calculate_next_occurrence dt .DAILY = .ok e ∧ e.Valid := by
  obtain ⟨e, he, hev⟩ := addDays_ok 1 0 (by omega) dt hv (Or.inl hy)
  refine ⟨e, ?_, hev⟩
  unfold calculate_next_occurrence
  rw [he]

theorem calc_weekly_ok (dt : DateTime) (hv : dt.Valid) (hy : dt.year ≤ 9998) :
    ∃ e, calculate_next_occurrence dt .WEEKLY = .ok e ∧ e.Valid := by
  obtain ⟨e, he, hev⟩ := addDays_ok 7 0 (by omega) dt hv (Or.inl hy)
  refine ⟨e, ?_, hev⟩
  unfold calculate_next_occurrence
  rw [he]

theorem calc_daily_eq {dt e : DateTime} :
    calculate_next_occurrence dt .DAILY = .ok e ↔ addDays dt 1 = some e := by
  unfold calculate_next_occurrence
  cases h : addDays dt 1 with
  | none => simp [h]
  | some d => simp [h]

theorem calc_weekly_eq {dt e : DateTime} :
    calculate_next_occurrence dt .WEEKLY = .ok e ↔ addDays dt 7 = some e := by
  unfold calculate_next_occurrence
  cases h : addDays dt 7 with
  | none => simp [h]
  | some d => simp [h]

theorem calc_monthly_shape {dt r : DateTime}
    (h : calculate_next_occurrence dt .MONTHLY = .ok r) :
    r.second = 0 ∧ r.microsecond = 0 ∧ r.hour = dt.hour ∧ r.minute = dt.minute := by
  unfold calculate_next_occurrence at h
  cases hf : firstOfFollowingMonth dt with
  | none => simp only [hf] at h; injection h
  | some fofm =>
    simp only [hf] at h
    cases hp : prevDate fofm with
    | none => simp only [hp] at h; injection h
    | some l =>
      simp only [hp] at h
      cases hm : mkDatetime (monthlyTargetYear dt) (monthlyTargetMonth dt)
          (monthlyTargetDay dt l.day) dt.hour dt.minute with
      | none => simp only [hm] at h; injection h
      | some v =>
        simp only [hm, Except.ok.injEq] at h
        subst h
        have := (mkDatetime_some_inv hm).1
        subst this
        exact ⟨rfl, rfl, rfl, rfl⟩

/-- C1 counterexample: `9999-11-15T09:00` is a valid timestamp and its
monthly advance `9999-12-15T09:00` is itself a valid timestamp, yet `calculate_next_occurrence` raises `ValueError` (the internal
first-of-following-month computation needs year 10000), so the claim "for
every valid timestamp, MONTHLY advances to the same calendar day in the
following month" is false as stated. -/
theorem C1_counterexample :
    DateTime.Valid ⟨9999, 11, 15, 9, 0, 0, 0⟩ ∧
    DateTime.Valid ⟨9999, 12, 15, 9, 0, 0, 0⟩ ∧
    calculate_next_occurrence ⟨9999, 11, 15, 9, 0, 0, 0⟩ .MONTHLY ≠
      .ok ⟨9999, 12, 15, 9, 0, 0, 0⟩ ∧
    calculate_next_occurrence ⟨9999, 11, 15, 9, 0, 0, 0⟩ .MONTHLY =
      .error (.valueError "year is out of range") :=
  ⟨by decide, by decide, by decide, rfl⟩

/-- C1 (amended): for every valid timestamp outside November and December of
year 9999, MONTHLY advances to the same calendar day in the following month
with hour and minute preserved, clamping the day to the last valid day of the
target month; and the three boundary examples of the spec hold:
`2025-01-31 -> 2025-02-28`, `2024-02-29 -> 2024-03-29`, and
`2025-12-31 -> 2026-01-31` (December rolls the year over). -/
theorem C1_monthly_clamped :
    (∀ dt : DateTime, dt.Valid → ¬(dt.year = 9999 ∧ 11 ≤ dt.month) →
      calculate_next_occurrence dt .MONTHLY =
        .ok { year := monthlyTargetYear dt, month := monthlyTargetMonth dt,
              day := min dt.day (daysInMonth (monthlyTargetYear dt) (monthlyTargetMonth dt)),
              hour := dt.hour, minute := dt.minute, second := 0, microsecond := 0 }) ∧
    calculate_next_occurrence ⟨2025, 1, 31, 9, 0, 0, 0⟩ .MONTHLY =
      .ok ⟨2025, 2, 28, 9, 0, 0, 0⟩ ∧
    calculate_next_occurrence ⟨2024, 2, 29, 9, 0, 0, 0⟩ .MONTHLY =
      .ok ⟨2024, 3, 29, 9, 0, 0, 0⟩ ∧
    calculate_next_occurrence ⟨2025, 12, 31, 9, 0, 0, 0⟩ .MONTHLY =
      .ok ⟨2026, 1, 31, 9, 0, 0, 0⟩ :=
  ⟨monthly_formula, by decide, by decide, by decide⟩

/-- C1 witness: the general clause of `C1_monthly_clamped` applied at
`2025-06-15T10:30`, advancing to `2025-07-15T10:30`. -/
theorem C1_witness :
    calculate_next_occurrence ⟨2025, 6, 15, 10, 30, 0, 0⟩ .MONTHLY =
      .ok ⟨2025, 7, 15, 10, 30, 0, 0⟩ :=
  C1_monthly_clamped.1 ⟨2025, 6, 15, 10, 30, 0, 0⟩ (by decide) (by decide)

/-- C8 counterexample: the claim says the calculator succeeds for every valid
timestamp under DAILY, WEEKLY and MONTHLY, but at the end of the representable
range each rule raises: DAILY at `9999-12-31` and WEEKLY at `9999-12-25`
overflow (`OverflowError`), and MONTHLY at `9999-12-01` raises `ValueError`. -/
theorem C8_counterexample :
    DateTime.Valid ⟨9999, 12, 31, 23, 59, 0, 0⟩ ∧
    calculate_next_occurrence ⟨9999, 12, 31, 23, 59, 0, 0⟩ .DAILY =
      .error .overflowError ∧
    DateTime.Valid ⟨9999, 12, 25, 8, 0, 0, 0⟩ ∧
    calculate_next_occurrence ⟨9999, 12, 25, 8, 0, 0, 0⟩ .WEEKLY =
      .error .overflowError ∧
    DateTime.Valid ⟨9999, 12, 1, 8, 0, 0, 0⟩ ∧
    calculate_next_occurrence ⟨9999, 12, 1, 8, 0, 0, 0⟩ .MONTHLY =
      .error (.valueError "year is out of range") :=
  ⟨by decide, rfl, by decide, rfl, by decide, rfl⟩

/-- C8 (amended): `calculate_next_occurrence` raises `ValueError` for every
input whose rule is NONE, and succeeds for every valid timestamp with year at
most 9998 under DAILY, WEEKLY and MONTHLY (for year 9999 it can raise near
the end of the representable range, as the counterexample shows). -/
theorem C8_error_contract :
    (∀ dt : DateTime,
      calculate_next_occurrence dt .NONE =
        .error (.valueError "Cannot calculate next occurrence for non-recurring task")) ∧
    (∀ dt : DateTime, dt.Valid → dt.year ≤ 9998 →
      (∃ e, calculate_next_occurrence dt .DAILY = .ok e) ∧
      (∃ e, calculate_next_occurrence dt .WEEKLY = .ok e) ∧
      (∃ e, calculate_next_occurrence dt .MONTHLY = .ok e)) := by
  refine ⟨fun dt => rfl, fun dt hv hy => ?_⟩
  obtain ⟨d, hd, -⟩ := calc_daily_ok dt hv hy
  obtain ⟨w, hw, -⟩ := calc_weekly_ok dt hv hy
  exact ⟨⟨d, hd⟩, ⟨w, hw⟩, ⟨_, monthly_formula dt hv (by omega)⟩⟩

/-- C8 witness: the contract applied at `2030-05-20T12:00` — the NONE rule
raises, and all three recurring rules succeed there. -/
theorem C8_witness :
    calculate_next_occurrence ⟨2030, 5, 20, 12, 0, 0, 0⟩ .NONE =
      .error (.valueError "Cannot calculate next occurrence for non-recurring task") ∧
    (∃ e, calculate_next_occurrence ⟨2030, 5, 20, 12, 0, 0, 0⟩ .DAILY = .ok e) ∧
    (∃ e, calculate_next_occurrence ⟨2030, 5, 20, 12, 0, 0, 0⟩ .WEEKLY = .ok e) ∧
    (∃ e, calculate_next_occurrence ⟨2030, 5, 20, 12, 0, 0, 0⟩ .MONTHLY = .ok e) :=
  ⟨C8_error_contract.1 ⟨2030, 5, 20, 12, 0, 0, 0⟩,
   C8_error_contract.2 ⟨2030, 5, 20, 12, 0, 0, 0⟩ (by decide) (by decide)⟩

theorem key_decomp (dt : DateTime) :
    dt.key = (dateKey dt * 86400 + secondsOfDay dt) * 1000000 + dt.microsecond := by
  unfold DateTime.key dateKey secondsOfDay
  ring

theorem ltb_iff_key {a b : DateTime} (ha : a.Valid) (hb : b.Valid) :
    a.ltb b = true ↔ a.key < b.key := by
  obtain ⟨ha1, ha2, ha3, ha4, ha5, ha6, ha7, ha8, ha9, ha10⟩ := ha
  obtain ⟨hb1, hb2, hb3, hb4, hb5, hb6, hb7, hb8, hb9, hb10⟩ := hb
  have hda := daysInMonth_le31 a.year a.month
  have hdb := daysInMonth_le31 b.year b.month
  unfold DateTime.ltb
  by_cases h1 : a.year < b.year
  · rw [if_pos h1]
    exact iff_of_true rfl (by unfold DateTime.key; omega)
  · rw [if_neg h1]
    by_cases h2 : b.year < a.year
    · rw [if_pos h2]
      exact iff_of_false (by decide) (by unfold DateTime.key; omega)
    · rw [if_neg h2]
      by_cases h3 : a.month < b.month
      · rw [if_pos h3]
        exact iff_of_true rfl (by unfold DateTime.key; omega)
      · rw [if_neg h3]
        by_cases h4 : b.month < a.month
        · rw [if_pos h4]
          exact iff_of_false (by decide) (by unfold DateTime.key; omega)
        · rw [if_neg h4]
          by_cases h5x : a.day < b.day
          · rw [if_pos h5x]
            exact iff_of_true rfl (by unfold DateTime.key; omega)
          · rw [if_neg h5x]
            by_cases h6x : b.day < a.day
            · rw [if_pos h6x]
              exact iff_of_false (by decide) (by unfold DateTime.key; omega)
            · rw [if_neg h6x]
              by_cases h7x : a.hour < b.hour
              · rw [if_pos h7x]
                exact iff_of_true rfl (by unfold DateTime.key; omega)
              · rw [if_neg h7x]
                by_cases h8x : b.hour < a.hour
                · rw [if_pos h8x]
                  exact iff_of_false (by decide) (by unfold DateTime.key; omega)
                · rw [if_neg h8x]
                  by_cases h9x : a.minute < b.minute
                  · rw [if_pos h9x]
                    exact iff_of_true rfl (by unfold DateTime.key; omega)
                  · rw [if_neg h9x]
                    by_cases h10x : b.minute < a.minute
                    · rw [if_pos h10x]
                      exact iff_of_false (by decide) (by unfold DateTime.key; omega)
                    · rw [if_neg h10x]
                      by_cases h11x : a.second < b.second
                      · rw [if_pos h11x]
                        exact iff_of_true rfl (by unfold DateTime.key; omega)
                      · rw [if_neg h11x]
                        by_cases h12x : b.second < a.second
                        · rw [if_pos h12x]
                          exact iff_of_false (by decide) (by unfold DateTime.key; omega)
                        · rw [if_neg h12x]
                          by_cases h13 : a.microsecond < b.microsecond
                          · rw [if_pos h13]
                            exact iff_of_true rfl (by unfold DateTime.key; omega)
                          · rw [if_neg h13]
                            exact iff_of_false (by decide) (by unfold DateTime.key; omega)

theorem leb_iff_key {a b : DateTime} (ha : a.Valid) (hb : b.Valid) :
    a.leb b = true ↔ a.key ≤ b.key := by
  unfold DateTime.leb
  rw [Bool.not_eq_true']
  constructor
  · intro h
    have hnc : ¬(b.key < a.key) := fun hc => by
      have h2 := (ltb_iff_key hb ha).2 hc
      rw [h] at h2
      cases h2
    omega
  · intro h
    cases hba : DateTime.ltb b a
    · rfl
    · exact absurd ((ltb_iff_key hb ha).1 hba) (by omega)

theorem ltb_irrefl (a : DateTime) : a.ltb a = false := by
  unfold DateTime.ltb
  split_ifs
  all_goals first | rfl | (exfalso; omega)

theorem timeOfDayReplace_idem (dt : DateTime) (r1 r2 : Nat) :
    timeOfDayReplace (timeOfDayReplace dt r1) r2 = timeOfDayReplace dt r2 := rfl

theorem secondsOfDay_timeReplace (dt : DateTime) (r : Nat) :
    secondsOfDay (timeOfDayReplace dt r) = r := by
  show r / 3600 * 3600 + r % 3600 / 60 * 60 + r % 60 = r
  omega

theorem timeReplace_valid {dt : DateTime} (hv : dt.Valid) {r : Nat} (hr : r < 86400) :
    (timeOfDayReplace dt r).Valid := by
  obtain ⟨h1, h2, h3, h4, h5, h6, h7, h8, h9, h10⟩ := hv
  exact valid_mk h1 h2 h3 h4 h5 h6 (by omega) (by omega) (by omega) h10

theorem nextDate_timeReplace (dt : DateTime) (r : Nat) :
    nextDate (timeOfDayReplace dt r) =
      (nextDate dt).map (fun e => timeOfDayReplace e r) := by
  unfold nextDate timeOfDayReplace
  dsimp only
  split_ifs
  all_goals rfl

theorem addDays_timeReplace : ∀ (n : Nat) (dt : DateTime) (r : Nat),
    addDays (timeOfDayReplace dt r) n =
      (addDays dt n).map (fun e => timeOfDayReplace e r) := by
  intro n
  induction n with
  | zero => intro dt r; rfl
  | succ n ih =>
    intro dt r
    rw [show addDays dt (n + 1) = (nextDate dt).bind (fun d => addDays d n) from rfl]
    show (nextDate (timeOfDayReplace dt r)).bind (fun d => addDays d n) = _
    rw [nextDate_timeReplace]
    cases h : nextDate dt with
    | none => rfl
    | some e =>
      show addDays (timeOfDayReplace e r) n = _
      rw [ih]
      rfl

theorem addDays_add : ∀ (m : Nat), ∀ (n : Nat) (dt : DateTime),
    addDays dt (m + n) = (addDays dt m).bind (fun e => addDays e n) := by
  intro m
  induction m with
  | zero =>
    intro n dt
    rw [Nat.zero_add]
    rfl
  | succ m ih =>
    intro n dt
    rw [show m + 1 + n = (m + n) + 1 from by omega]
    show (nextDate dt).bind (fun d => addDays d (m + n)) =
      ((nextDate dt).bind (fun d => addDays d m)).bind (fun e => addDays e n)
    cases h : nextDate dt with
    | none => rfl
    | some e =>
      show addDays e (m + n) = (addDays e m).bind (fun f => addDays f n)
      exact ih n e

theorem addSeconds_eq (a : DateTime) (k : Nat) :
    addSeconds a k =
      (addDays a ((secondsOfDay a + k) / 86400)).map
        (fun e => timeOfDayReplace e ((secondsOfDay a + k) % 86400)) := by
  unfold addSeconds
  rw [addDays_timeReplace]

theorem addSeconds_comp {a b : DateTime} {j : Nat} (h : addSeconds a j = some b)
    (k : Nat) : addSeconds a (j + k) = addSeconds b k := by
  rw [addSeconds_eq] at h
  cases h0 : addDays a ((secondsOfDay a + j) / 86400) with
  | none => rw [h0] at h; cases h
  | some b0 =>
    rw [h0] at h
    simp only [Option.map_some'] at h
    injection h with h
    subst h
    rw [addSeconds_eq, addSeconds_eq, secondsOfDay_timeReplace, addDays_timeReplace]
    have e1 : (secondsOfDay a + (j + k)) / 86400 =
        (secondsOfDay a + j) / 86400 + ((secondsOfDay a + j) % 86400 + k) / 86400 := by
      omega
    have e2 : (secondsOfDay a + (j + k)) % 86400 =
        ((secondsOfDay a + j) % 86400 + k) % 86400 := by
      omega
    rw [e1, e2, addDays_add, h0]
    cases h2 : addDays b0 (((secondsOfDay a + j) % 86400 + k) / 86400) with
    | none => simp [h2]
    | some c => simp [h2, timeOfDayReplace_idem]

theorem nextDate_dateKey {a b : DateTime} (hv : a.Valid) (h : nextDate a = some b) :
    b.Valid ∧ dateKey a < dateKey b := by
  obtain ⟨h1, h2, h3, h4, h5, h6, h7, h8, h9, h10⟩ := hv
  have hd31 := daysInMonth_le31 a.year a.month
  unfold nextDate at h
  split at h
  · injection h with h
    subst h
    refine ⟨valid_mk h1 h2 h3 h4 (by omega) (by omega) h7 h8 h9 h10, ?_⟩
    show (a.year * 13 + a.month) * 32 + a.day <
      (a.year * 13 + a.month) * 32 + (a.day + 1)
    omega
  · split at h
    · injection h with h
      subst h
      refine ⟨valid_mk h1 h2 (by omega) (by omega) (by omega)
        (Nat.le_trans (by omega) (daysInMonth_ge28 _ _)) h7 h8 h9 h10, ?_⟩
      show (a.year * 13 + a.month) * 32 + a.day <
        (a.year * 13 + (a.month + 1)) * 32 + 1
      omega
    · split at h
      · injection h with h
        subst h
        refine ⟨valid_mk (by omega) (by omega) (by omega) (by omega) (by omega)
          (Nat.le_trans (by omega) (daysInMonth_ge28 _ _)) h7 h8 h9 h10, ?_⟩
        show (a.year * 13 + a.month) * 32 + a.day <
          ((a.year + 1) * 13 + 1) * 32 + 1
        omega
      · cases h

theorem addDays_dateKey : ∀ (n : Nat) {a b : DateTime}, a.Valid →
    addDays a n = some b → b.Valid ∧ dateKey a + n ≤ dateKey b := by
  intro n
  induction n with
  | zero =>
    intro a b hv h
    injection h with h
    subst h
    exact ⟨hv, by omega⟩
  | succ n ih =>
    intro a b hv h
    rw [show addDays a (n + 1) = (nextDate a).bind (fun d => addDays d n) from rfl] at h
    cases he : nextDate a with
    | none => rw [he] at h; cases h
    | some e =>
      rw [he] at h
      simp only [Option.some_bind] at h
      obtain ⟨hev, hlt⟩ := nextDate_dateKey hv he
      obtain ⟨hbv, hk⟩ := ih hev h
      exact ⟨hbv, by omega⟩

theorem addSeconds_key {a b : DateTime} {k : Nat} (hv : a.Valid)
    (h : addSeconds a k = some b) : b.Valid ∧ a.key + k * 1000000 ≤ b.key := by
  have hvT : secondsOfDay a ≤ 86399 := by
    obtain ⟨_, _, _, _, _, _, h7, h8, h9, _⟩ := hv
    unfold secondsOfDay
    omega
  unfold addSeconds at h
  have hrv : (timeOfDayReplace a ((secondsOfDay a + k) % 86400)).Valid :=
    timeReplace_valid hv (by omega)
  obtain ⟨hbv, hdk⟩ := addDays_dateKey ((secondsOfDay a + k) / 86400) hrv h
  have ht := addDays_time ((secondsOfDay a + k) / 86400) h
  refine ⟨hbv, ?_⟩
  have h4 : secondsOfDay b = (secondsOfDay a + k) % 86400 := by
    unfold secondsOfDay
    rw [ht.1, ht.2.1, ht.2.2.1]
    exact secondsOfDay_timeReplace a _
  have h5 : b.microsecond = a.microsecond := by
    rw [ht.2.2.2]
    rfl
  have h3 : dateKey (timeOfDayReplace a ((secondsOfDay a + k) % 86400)) = dateKey a := rfl
  rw [h3] at hdk
  rw [key_decomp a, key_decomp b, h4, h5]
  omega

theorem classify_fold (now thr : DateTime) : ∀ (l : List Task) (acc : List Task × List Task),
    l.foldl (reminderClassify now thr) acc =
      (acc.1 ++ l.filter (overduePred now), acc.2 ++ l.filter (dueSoonPred now thr)) := by
  intro l
  induction l with
  | nil => intro acc; simp
  | cons t ts ih =>
    intro acc
    rw [List.foldl_cons, ih]
    by_cases hc : t.completed = true
    · simp [reminderClassify, overduePred, dueSoonPred, hc, List.filter_cons]
    · cases hd : t.due_date with
      | none => simp [reminderClassify, overduePred, dueSoonPred, hc, hd, List.filter_cons]
      | some d =>
        by_cases hm : isMidnight d = true
        · simp [reminderClassify, overduePred, dueSoonPred, hc, hd, hm, List.filter_cons]
        · by_cases hlt : d.ltb now = true
          · simp [reminderClassify, overduePred, dueSoonPred, hc, hd, hm, hlt,
              List.filter_cons]
          · by_cases hds : (now.leb d && d.ltb thr) = true
            · simp [reminderClassify, overduePred, dueSoonPred, hc, hd, hm, hlt, hds,
                List.filter_cons]
            · simp [reminderClassify, overduePred, dueSoonPred, hc, hd, hm, hlt, hds,
                List.filter_cons]

theorem check_reminders_spec {s : TaskStore} {now thr : DateTime}
    (hthr : addSeconds now 3600 = some thr) :
    check_reminders s now =
      (.ok { overdue_tasks := (TaskStore.get_all s).filter (overduePred now),
             due_soon_tasks := (TaskStore.get_all s).filter (dueSoonPred now thr),
             overdue_count := ((TaskStore.get_all s).filter (overduePred now)).length,
             due_soon_count := ((TaskStore.get_all s).filter (dueSoonPred now thr)).length },
       s) := by
  unfold check_reminders
  simp only [hthr]
  rw [classify_fold]
  simp

theorem check_reminders_store_unchanged (s : TaskStore) (now : DateTime) :
    (check_reminders s now).2 = s := by
  unfold check_reminders
  cases h : addSeconds now 3600 <;> simp [h]

theorem not_mem_filter_of_pred_false {p : Task → Bool} {l : List Task} {t : Task}
    (h : p t = false) : t ∉ l.filter p := by
  intro hm
  rw [List.mem_filter, h] at hm
  cases hm.2

theorem preds_false_of_disqualified {t : Task} (now thr : DateTime)
    (h : t.completed = true ∨ t.due_date = none ∨
         (∃ d, t.due_date = some d ∧ isMidnight d = true)) :
    overduePred now t = false ∧ dueSoonPred now thr t = false := by
  unfold overduePred dueSoonPred
  rcases h with hc | hn | ⟨d, hd, hm⟩
  · rw [hc]; simp
  · rw [hn]; simp
  · rw [hd]; simp [hm]

theorem excluded_not_in_buckets {s : TaskStore} {now : DateTime} {res : ReminderResult}
    (hres : (check_reminders s now).1 = .ok res) {t : Task}
    (h : t.completed = true ∨ t.due_date = none ∨
         (∃ d, t.due_date = some d ∧ isMidnight d = true)) :
    t ∉ res.overdue_tasks ∧ t ∉ res.due_soon_tasks := by
  cases hthr : addSeconds now 3600 with
  | none =>
    unfold check_reminders at hres
    simp only [hthr] at hres
    injection hres
  | some thr =>
    rw [check_reminders_spec hthr] at hres
    dsimp only at hres
    injection hres with hres
    subst hres
    have hp := preds_false_of_disqualified now thr h
    exact ⟨not_mem_filter_of_pred_false hp.1, not_mem_filter_of_pred_false hp.2⟩

/-- C6: `check_reminders` never places in either reminder bucket a completed
task, a task without a due date, or a task whose due date is date-only (time
exactly `00:00:00`), regardless of how far past it lies; and it mutates no
task (the store comes back unchanged). -/
theorem C6_reminder_exclusions (s : TaskStore) (now : DateTime) :
    (check_reminders s now).2 = s ∧
    ∀ res, (check_reminders s now).1 = .ok res →
      ∀ t : Task,
        (t.completed = true ∨ t.due_date = none ∨
         (∃ d, t.due_date = some d ∧ isMidnight d = true)) →
        t ∉ res.overdue_tasks ∧ t ∉ res.due_soon_tasks := by
  refine ⟨check_reminders_store_unchanged s now, ?_⟩
  intro res hres t h
  exact excluded_not_in_buckets hres h

/-- C6 witness: at `c6Store` and `c3Now`, the completed task, the task
without a due date, and the far-past date-only task each land in neither
bucket, and the store is unchanged. -/
theorem C6_witness :
    (check_reminders c6Store c3Now).2 = c6Store ∧
    (c6TaskCompleted ∉ (⟨[], [], 0, 0⟩ : ReminderResult).overdue_tasks ∧
     c6TaskCompleted ∉ (⟨[], [], 0, 0⟩ : ReminderResult).due_soon_tasks) ∧
    (c6TaskNoDue ∉ (⟨[], [], 0, 0⟩ : ReminderResult).overdue_tasks ∧
     c6TaskNoDue ∉ (⟨[], [], 0, 0⟩ : ReminderResult).due_soon_tasks) ∧
    (c6TaskDateOnly ∉ (⟨[], [], 0, 0⟩ : ReminderResult).overdue_tasks ∧
     c6TaskDateOnly ∉ (⟨[], [], 0, 0⟩ : ReminderResult).due_soon_tasks) := by
  have h := C6_reminder_exclusions c6Store c3Now
  refine ⟨h.1, ?_, ?_, ?_⟩
  · exact h.2 ⟨[], [], 0, 0⟩ (by decide) c6TaskCompleted (Or.inl rfl)
  · exact h.2 ⟨[], [], 0, 0⟩ (by decide) c6TaskNoDue (Or.inr (Or.inl rfl))
  · exact h.2 ⟨[], [], 0, 0⟩ (by decide) c6TaskDateOnly
      (Or.inr (Or.inr ⟨_, rfl, by decide⟩))

/-- C3 counterexample: at `c3Now`, the uncompleted timed task due at exactly
`now + 60` minutes (`c3TaskAtThr`) is placed in neither bucket — the source
comparison `task.due_date < soon_threshold` is strict, so the upper boundary
is exclusive, while the claim says such a task is due-soon. -/
theorem C3_counterexample :
    addSeconds c3Now 3600 = some c3Thr ∧
    c3TaskAtThr.due_date = some c3Thr ∧
    c3TaskAtThr.completed = false ∧
    isMidnight c3Thr = false ∧
    c3TaskAtThr ∈ TaskStore.get_all c3Store ∧
    (check_reminders c3Store c3Now).1 = .ok c3Res ∧
    c3TaskAtThr ∉ c3Res.due_soon_tasks ∧
    c3TaskAtThr ∉ c3Res.overdue_tasks :=
  ⟨by decide, rfl, rfl, by decide, by decide, by decide, by decide, by decide⟩

/-- C3 (amended): in `check_reminders`, for an uncompleted task with a timed
due date: a task due at exactly `now + 60` minutes is in neither bucket (the
upper boundary is exclusive); a task due at exactly `now` is due-soon and not
overdue; a task due at `now + 60` minutes `+ 1` second is in neither bucket;
and a task due at `now - 1` second is overdue. -/
theorem C3_boundary_classification :
    ∀ (now thr : DateTime), now.Valid → addSeconds now 3600 = some thr →
    ∀ (s : TaskStore) (res : ReminderResult), (check_reminders s now).1 = .ok res →
    ∀ t ∈ TaskStore.get_all s, t.completed = false →
      (t.due_date = some thr → isMidnight thr = false →
        t ∉ res.overdue_tasks ∧ t ∉ res.due_soon_tasks) ∧
      (t.due_date = some now → isMidnight now = false →
        t ∈ res.due_soon_tasks ∧ t ∉ res.overdue_tasks) ∧
      (∀ d2, addSeconds now 3601 = some d2 → t.due_date = some d2 →
        isMidnight d2 = false → t ∉ res.overdue_tasks ∧ t ∉ res.due_soon_tasks) ∧
      (∀ dp, dp.Valid → addSeconds dp 1 = some now → t.due_date = some dp →
        isMidnight dp = false → t ∈ res.overdue_tasks) := by
  intro now thr hvnow hthr s res hres t htmem htc
  obtain ⟨hthrv, hkey⟩ := addSeconds_key hvnow hthr
  rw [check_reminders_spec hthr] at hres
  dsimp only at hres
  injection hres with hres
  subst hres
  refine ⟨?_, ?_, ?_, ?_⟩
  · intro hdue hmid
    constructor
    · refine not_mem_filter_of_pred_false ?_
      have hlt : thr.ltb now = false := by
        cases hx : thr.ltb now
        · rfl
        · exact absurd ((ltb_iff_key hthrv hvnow).1 hx) (by omega)
      unfold overduePred
      rw [htc, hdue]
      simp [hmid, hlt]
    · refine not_mem_filter_of_pred_false ?_
      unfold dueSoonPred
      rw [htc, hdue]
      simp [hmid, ltb_irrefl]
  · intro hdue hmid
    have hlt : now.ltb thr = true := (ltb_iff_key hvnow hthrv).2 (by omega)
    constructor
    · refine List.mem_filter.2 ⟨htmem, ?_⟩
      unfold dueSoonPred DateTime.leb
      rw [htc, hdue]
      simp [hmid, ltb_irrefl, hlt]
    · refine not_mem_filter_of_pred_false ?_
      unfold overduePred
      rw [htc, hdue]
      simp [hmid, ltb_irrefl]
  · intro d2 h3601 hdue hmid
    have hcomp : addSeconds thr 1 = some d2 := by
      have hc := addSeconds_comp hthr 1
      rw [show (3600 : Nat) + 1 = 3601 from rfl] at hc
      rw [← hc]
      exact h3601
    obtain ⟨hd2v, hk2⟩ := addSeconds_key hthrv hcomp
    constructor
    · refine not_mem_filter_of_pred_false ?_
      have hlt : d2.ltb now = false := by
        cases hx : d2.ltb now
        · rfl
        · exact absurd ((ltb_iff_key hd2v hvnow).1 hx) (by omega)
      unfold overduePred
      rw [htc, hdue]
      simp [hmid, hlt]
    · refine not_mem_filter_of_pred_false ?_
      have hlt : d2.ltb thr = false := by
        cases hx : d2.ltb thr
        · rfl
        · exact absurd ((ltb_iff_key hd2v hthrv).1 hx) (by omega)
      unfold dueSoonPred
      rw [htc, hdue]
      simp [hmid, hlt]
  · intro dp hdpv h1s hdue hmid
    obtain ⟨-, hkp⟩ := addSeconds_key hdpv h1s
    have hlt : dp.ltb now = true := (ltb_iff_key hdpv hvnow).2 (by omega)
    refine List.mem_filter.2 ⟨htmem, ?_⟩
    unfold overduePred
    rw [htc, hdue]
    simp [hmid, hlt]

/-- C3 witness: the four boundary scenarios instantiated at `c3Store` and
`c3Now`: the task due at the threshold is in neither bucket, the task due at
`now` is due-soon only, the task due one second past the threshold is in
neither bucket, and the task due one second before `now` is overdue. -/
theorem C3_witness :
    (c3TaskAtThr ∉ c3Res.overdue_tasks ∧ c3TaskAtThr ∉ c3Res.due_soon_tasks) ∧
    (c3TaskAtNow ∈ c3Res.due_soon_tasks ∧ c3TaskAtNow ∉ c3Res.overdue_tasks) ∧
    (c3TaskAfter ∉ c3Res.overdue_tasks ∧ c3TaskAfter ∉ c3Res.due_soon_tasks) ∧
    c3TaskPrev ∈ c3Res.overdue_tasks := by
  have h := C3_boundary_classification c3Now c3Thr (by decide) (by decide)
    c3Store c3Res (by decide)
  refine ⟨(h c3TaskAtThr (by decide) rfl).1 rfl (by decide),
          (h c3TaskAtNow (by decide) rfl).2.1 rfl (by decide),
          (h c3TaskAfter (by decide) rfl).2.2.1 c3After (by decide) rfl (by decide),
          (h c3TaskPrev (by decide) rfl).2.2.2 c3Prev (by decide) (by decide) rfl
            (by decide)⟩

/-- C9: the MONTHLY branch rebuilds its result from year, month, day, hour
and minute only, so any returned timestamp has zero seconds and microseconds
while hour and minute are carried over; DAILY and WEEKLY preserve the full
time of day; a due date whose time is `00:00` plus a nonzero seconds or
sub-second part is timed (not date-only), but its monthly advance is exactly
midnight and is thereafter excluded from both reminder buckets. -/
theorem C9_monthly_drops_seconds :
    (∀ (dt res : DateTime), calculate_next_occurrence dt .MONTHLY = .ok res →
      res.second = 0 ∧ res.microsecond = 0 ∧ res.hour = dt.hour ∧ res.minute = dt.minute) ∧
    (∀ (dt res : DateTime), calculate_next_occurrence dt .DAILY = .ok res →
      res.hour = dt.hour ∧ res.minute = dt.minute ∧ res.second = dt.second ∧
      res.microsecond = dt.microsecond) ∧
    (∀ (dt res : DateTime), calculate_next_occurrence dt .WEEKLY = .ok res →
      res.hour = dt.hour ∧ res.minute = dt.minute ∧ res.second = dt.second ∧
      res.microsecond = dt.microsecond) ∧
    (∀ dt : DateTime, dt.second ≠ 0 ∨ dt.microsecond ≠ 0 → isMidnight dt = false) ∧
    (∀ (dt res : DateTime), dt.hour = 0 → dt.minute = 0 →
      calculate_next_occurrence dt .MONTHLY = .ok res → isMidnight res = true) ∧
    (∀ (s : TaskStore) (now : DateTime) (res : ReminderResult) (t : Task) (d : DateTime),
      (check_reminders s now).1 = .ok res → t.due_date = some d → isMidnight d = true →
      t ∉ res.overdue_tasks ∧ t ∉ res.due_soon_tasks) := by
  refine ⟨fun dt res h => calc_monthly_shape h, ?_, ?_, ?_, ?_, ?_⟩
  · intro dt res h
    exact addDays_time 1 (calc_daily_eq.1 h)
  · intro dt res h
    exact addDays_time 7 (calc_weekly_eq.1 h)
  · intro dt h
    unfold isMidnight
    rcases h with h | h
    · cases hx : (dt.second == 0)
      · simp [hx]
      · exact absurd (by simpa using hx) h
    · cases hx : (dt.microsecond == 0)
      · simp [hx]
      · exact absurd (by simpa using hx) h
  · intro dt res hh hm h
    obtain ⟨h1, h2, h3, h4⟩ := calc_monthly_shape h
    unfold isMidnight
    rw [h1, h2, h3, h4, hh, hm]
    rfl
  · intro s now res t d hres hd hm
    exact excluded_not_in_buckets hres (Or.inr (Or.inr ⟨d, hd, hm⟩))

/-- C9 witness: `00:00:30` on 2025-03-05 is timed; its monthly advance is
exactly `2025-04-05T00:00:00`, and the task carrying that advanced due date
appears in neither bucket even months later. -/
theorem C9_witness :
    isMidnight c9Due = false ∧
    calculate_next_occurrence c9Due .MONTHLY = .ok c9Next ∧
    isMidnight c9Next = true ∧
    c9Task ∉ (⟨[], [], 0, 0⟩ : ReminderResult).overdue_tasks ∧
    c9Task ∉ (⟨[], [], 0, 0⟩ : ReminderResult).due_soon_tasks := by
  have h5 := C9_monthly_drops_seconds.2.2.2.2.2 c9Store c3Now ⟨[], [], 0, 0⟩ c9Task c9Next
    (by decide) rfl (by decide)
  have h4 := C9_monthly_drops_seconds.2.2.2.2.1 c9Due c9Next rfl rfl (by decide)
  exact ⟨by decide, by decide, h4, h5.1, h5.2⟩

theorem mark_complete_eq {s : TaskStore} {task_id : Int} {t : Task}
    (h : s.get task_id = .ok t) (now : DateTime) :
    s.mark_complete task_id now =
      .ok ({ t with completed := true, updated_at := some now },
           s.replace task_id { t with completed := true, updated_at := some now }) := by
  unfold TaskStore.mark_complete
  simp only [h]

theorem add_eq (s : TaskStore) {title description : String}
    (h1 : ¬(title = "")) (h2 : title.length ≤ 100) (h3 : description.length ≤ 500)
    (priority : Priority) (tags : List String) (due_date : Option DateTime)
    (recurrence : Recurrence) (now : DateTime) :
    s.add title description priority tags due_date recurrence now =
      .ok ({ id := s.next_id, title := title, description := description,
             completed := false, priority := priority, tags := tags,
             due_date := due_date, recurrence := recurrence, created_at := now,
             updated_at := none },
           { tasks :=
               s.tasks ++
                 [{ id := s.next_id, title := title, description := description,
                    completed := false, priority := priority, tags := tags,
                    due_date := due_date, recurrence := recurrence,
                    created_at := now, updated_at := none }],
             next_id := s.next_id + 1 }) := by
  unfold TaskStore.add
  rw [if_neg (by simp [h1]), if_neg (by omega), if_neg (by omega)]

theorem replace_next_id (s : TaskStore) (i : Int) (t' : Task) :
    (TaskStore.replace s i t').next_id = s.next_id := rfl

theorem get_mem {s : TaskStore} {task_id : Int} {t : Task}
    (h : s.get task_id = .ok t) : t ∈ s.tasks ∧ t.id = task_id := by
  unfold TaskStore.get at h
  cases hf : s.tasks.find? (fun u => u.id == task_id) with
  | none => rw [hf] at h; injection h
  | some u =>
    rw [hf] at h
    injection h with h
    subst h
    refine ⟨List.mem_of_find?_eq_some hf, ?_⟩
    have := List.find?_some hf
    simpa using this

/-- C2 counterexample: `c2BoundaryStore` holds a stored task with non-NONE
recurrence and a non-null due date, yet `complete_task` does not return a
completed-task/new-task pair: the next-occurrence computation overflows and
the call raises instead. -/
theorem C2_counterexample :
    c2BoundaryTask.recurrence ≠ .NONE ∧
    c2BoundaryTask.due_date = some ⟨9999, 12, 31, 9, 0, 0, 0⟩ ∧
    DateTime.Valid ⟨9999, 12, 31, 9, 0, 0, 0⟩ ∧
    TaskStore.get c2BoundaryStore 1 = .ok c2BoundaryTask ∧
    (complete_task c2BoundaryStore 1 c3Now).1 = .error .overflowError :=
  ⟨by decide, rfl, by decide, by decide, by decide⟩

/-- C2 (amended): for a stored task with non-NONE recurrence and a non-null
due date, whenever the next-occurrence computation succeeds, `complete_task`
marks the task completed and creates exactly one successor: a fresh id (the
store counter, unequal to every stored id), `completed = false`, the advanced
due date, and title, description, priority, tags and recurrence copied; for a
stored task with recurrence NONE or a null due date it returns
`(completedTask, null)` and creates no task (the store changes only by the
completion). -/
theorem C2_complete_recurring :
    ∀ (s : TaskStore) (task_id : Int) (now : DateTime) (t : Task),
      WF s → s.get task_id = .ok t →
      (∀ d nd, t.due_date = some d → t.recurrence ≠ .NONE →
        calculate_next_occurrence d t.recurrence = .ok nd →
        complete_task s task_id now =
          (.ok ({ t with completed := true, updated_at := some now },
                some { id := s.next_id, title := t.title, description := t.description,
                       completed := false, priority := t.priority, tags := t.tags,
                       due_date := some nd, recurrence := t.recurrence,
                       created_at := now, updated_at := none }),
           { tasks := (TaskStore.replace s task_id
                { t with completed := true, updated_at := some now }).tasks ++
                [{ id := s.next_id, title := t.title, description := t.description,
                   completed := false, priority := t.priority, tags := t.tags,
                   due_date := some nd, recurrence := t.recurrence,
                   created_at := now, updated_at := none }],
             next_id := s.next_id + 1 }) ∧
        (∀ u ∈ s.tasks, u.id ≠ s.next_id)) ∧
      ((t.recurrence = .NONE ∨ t.due_date = none) →
        complete_task s task_id now =
          (.ok ({ t with completed := true, updated_at := some now }, none),
           TaskStore.replace s task_id
             { t with completed := true, updated_at := some now })) := by
  intro s task_id now t hwf hget
  obtain ⟨hids, hdist, hvalid⟩ := hwf
  obtain ⟨hmem, -⟩ := get_mem hget
  obtain ⟨hne, hlen1, hlen2⟩ := hvalid t hmem
  constructor
  · intro d nd hdue hrec hcalc
    have hb : (t.recurrence != Recurrence.NONE) = true := by
      simp [bne_iff_ne, hrec]
    constructor
    · unfold complete_task
      simp only [hget, mark_complete_eq hget now, hdue, hb, if_true, hcalc]
      rw [add_eq _ hne hlen1 hlen2 _ _ _ _ _]
      simp only [replace_next_id]
    · intro u hu
      have := hids u hu
      omega
  · intro hnr
    unfold complete_task
    simp only [hget, mark_complete_eq hget now]
    rcases hnr with hrec | hdue
    · cases hd : t.due_date with
      | some d => simp [hrec]
      | none => simp
    · simp [hdue]

/-- C2 witness: completing the stored daily task of `c2Store` marks it
completed and creates the successor with id 2, the advanced due date
`c2NextDue`, and the descriptive fields copied. -/
theorem C2_witness :
    complete_task c2Store 1 c3Now =
      (.ok ({ c2Task with completed := true, updated_at := some c3Now },
            some { id := 2, title := c2Task.title, description := c2Task.description,
                   completed := false, priority := c2Task.priority, tags := c2Task.tags,
                   due_date := some c2NextDue, recurrence := c2Task.recurrence,
                   created_at := c3Now, updated_at := none }),
       { tasks := (TaskStore.replace c2Store 1
            { c2Task with completed := true, updated_at := some c3Now }).tasks ++
            [{ id := 2, title := c2Task.title, description := c2Task.description,
               completed := false, priority := c2Task.priority, tags := c2Task.tags,
               due_date := some c2NextDue, recurrence := c2Task.recurrence,
               created_at := c3Now, updated_at := none }],
         next_id := 3 }) ∧
    c2Task.id ≠ (2 : Int) :=
  ⟨((C2_complete_recurring c2Store 1 c3Now c2Task (by decide) (by decide)).1
      c2Due c2NextDue rfl (by decide) (by decide)).1,
   ((C2_complete_recurring c2Store 1 c3Now c2Task (by decide) (by decide)).1
      c2Due c2NextDue rfl (by decide) (by decide)).2 c2Task (by decide)⟩

/-- C7 counterexample: completing the recurring task of `c7Store` (weekly,
due `9999-12-28T10:00`) raises from the next-occurrence computation, yet the
store is left with the task marked completed and with no successor created —
the two mutations are not atomic. -/
theorem C7_counterexample :
    (complete_task c7Store 1 c3Now).1 = .error .overflowError ∧
    (complete_task c7Store 1 c3Now).2.tasks.map Task.completed = [true] ∧
    (complete_task c7Store 1 c3Now).2.tasks.length = c7Store.tasks.length ∧
    c7Task.recurrence ≠ .NONE ∧ c7Task.due_date ≠ none :=
  ⟨by decide, by decide, by decide, by decide, by decide⟩

/-- C7 (amended): `complete_task` is not atomic on failure: it marks the task
completed first and does not roll back, so when the next-occurrence
computation of a recurring task raises, the error propagates with the task
already completed in the store and no successor created. -/
theorem C7_completion_not_rolled_back :
    ∀ (s : TaskStore) (task_id : Int) (now : DateTime) (t : Task) (d : DateTime) (e : Err),
      s.get task_id = .ok t → t.due_date = some d → t.recurrence ≠ .NONE →
      calculate_next_occurrence d t.recurrence = .error e →
      complete_task s task_id now =
        (.error e, TaskStore.replace s task_id
          { t with completed := true, updated_at := some now }) := by
  intro s task_id now t d e hget hdue hrec hcalc
  have hb : (t.recurrence != Recurrence.NONE) = true := by
    simp [bne_iff_ne, hrec]
  unfold complete_task
  simp only [hget, mark_complete_eq hget now, hdue, hb, if_true, hcalc]

/-- C7 witness: the no-rollback equation instantiated at `c7Store`: the call
errors with `OverflowError` and the post-store is exactly the pre-store with
the task marked completed. -/
theorem C7_witness :
    complete_task c7Store 1 c3Now =
      (.error .overflowError, TaskStore.replace c7Store 1
        { c7Task with completed := true, updated_at := some c3Now }) :=
  C7_completion_not_rolled_back c7Store 1 c3Now c7Task ⟨9999, 12, 28, 10, 0, 0, 0⟩
    .overflowError (by decide) rfl (by decide) (by decide)

theorem map_replace_ids (t' : Task) (i : Int) (h : t'.id = i) :
    ∀ l : List Task,
      (l.map (fun u => if u.id == i then t' else u)).map Task.id = l.map Task.id := by
  intro l
  induction l with
  | nil => rfl
  | cons u us ih =>
    simp only [List.map_cons, ih]
    congr 1
    by_cases hu : (u.id == i) = true
    · have hui : u.id = i := by simpa using hu
      rw [if_pos hu, h, hui]
    · rw [if_neg hu]

theorem replace_ids {t' : Task} {i : Int} (h : t'.id = i) (s : TaskStore) :
    (TaskStore.replace s i t').tasks.map Task.id = s.tasks.map Task.id :=
  map_replace_ids t' i h s.tasks

theorem replace_of_get_ids {s : TaskStore} {task_id : Int} {t t' : Task}
    (hget : s.get task_id = .ok t) (hid : t'.id = t.id) :
    (TaskStore.replace s task_id t').tasks.map Task.id = s.tasks.map Task.id :=
  replace_ids (by rw [hid, (get_mem hget).2]) s

theorem reindexNumber_ids : ∀ (l : List Task) (i : Int),
    (reindexNumber l i).map Task.id = (List.range l.length).map (fun k : Nat => i + (k : Int)) := by
  intro l
  induction l with
  | nil => intro i; rfl
  | cons t ts ih =>
    intro i
    show ({ t with id := i } :: reindexNumber ts (i + 1)).map Task.id = _
    rw [List.map_cons, ih, List.length_cons, List.range_succ_eq_map,
      List.map_cons, List.map_map]
    refine congrArg₂ _ (by norm_num) (List.map_congr_left ?_)
    intro a _
    show i + 1 + (a : Int) = i + ((a : Nat) + 1 : Nat)
    push_cast
    ring

theorem reindexNumber_length : ∀ (l : List Task) (i : Int),
    (reindexNumber l i).length = l.length := by
  intro l
  induction l with
  | nil => intro i; rfl
  | cons t ts ih =>
    intro i
    show (reindexNumber ts (i + 1)).length + 1 = ts.length + 1
    rw [ih]

theorem reindex_spec (s' : TaskStore) :
    (TaskStore.reindex s').tasks.map Task.id =
      (List.range (TaskStore.reindex s').tasks.length).map
        (fun k : Nat => (1 : Int) + (k : Int)) ∧
    (TaskStore.reindex s').next_id = Int.ofNat (TaskStore.reindex s').tasks.length + 1 := by
  unfold TaskStore.reindex
  split
  · next he =>
    have h0 : s'.tasks = [] := by simpa [List.isEmpty_iff] using he
    constructor
    · show s'.tasks.map Task.id = (List.range s'.tasks.length).map _
      rw [h0]
      rfl
    · show (1 : Int) = Int.ofNat s'.tasks.length + 1
      rw [h0]
      rfl
  · constructor
    · show (reindexNumber (TaskStore.get_all s') 1).map Task.id =
        (List.range (reindexNumber (TaskStore.get_all s') 1).length).map
          (fun k : Nat => (1 : Int) + (k : Int))
      rw [reindexNumber_ids, reindexNumber_length]
    · rfl

theorem delete_reindexes {s : TaskStore} {task_id : Int} {b : Bool} {s1 : TaskStore}
    (h : s.delete task_id = .ok (b, s1)) :
    s1.tasks.map Task.id =
      (List.range s1.tasks.length).map (fun k : Nat => (1 : Int) + (k : Int)) ∧
    s1.next_id = Int.ofNat s1.tasks.length + 1 := by
  unfold TaskStore.delete at h
  split at h
  · injection h
  · injection h with h
    injection h with h1 h2
    subst h2
    exact reindex_spec _

/-- C4 counterexample: deleting task 1 from a store holding tasks with ids 1
and 2 re-indexes the survivor: the task titled "B" changes id from 2 to 1,
so an existing task's id is changed by a delete of another task, and the
deleted id is reused while "B" still exists. -/
theorem C4_counterexample :
    TaskStore.delete c4Store 1 = .ok (true, ⟨[{ c4TaskB with id := 1 }], 2⟩) ∧
    c4TaskB.id = 2 ∧
    ({ c4TaskB with id := 1 } : Task).title = c4TaskB.title ∧
    ({ c4TaskB with id := 1 } : Task).id ≠ c4TaskB.id :=
  ⟨by decide, rfl, rfl, by decide⟩

/-- C4 (amended): task ids are stable under `mark_complete`,
`mark_incomplete`, `toggle`, `update` and `add` (every stored id is
unchanged; `add` appends the fresh counter id), but `TaskStore.delete`
re-indexes: after a successful delete the surviving tasks carry the
sequential ids 1..n (in creation order) and the counter is reset to n + 1,
so a delete changes ids of existing tasks and reuses freed ids. -/
theorem C4_ids_reindexed_on_delete :
    (∀ (s : TaskStore) (task_id : Int) (now : DateTime) (t1 : Task) (s1 : TaskStore),
      s.mark_complete task_id now = .ok (t1, s1) →
      s1.tasks.map Task.id = s.tasks.map Task.id) ∧
    (∀ (s : TaskStore) (task_id : Int) (now : DateTime) (t1 : Task) (s1 : TaskStore),
      s.mark_incomplete task_id now = .ok (t1, s1) →
      s1.tasks.map Task.id = s.tasks.map Task.id) ∧
    (∀ (s : TaskStore) (task_id : Int) (now : DateTime) (t1 : Task) (s1 : TaskStore),
      s.toggle task_id now = .ok (t1, s1) →
      s1.tasks.map Task.id = s.tasks.map Task.id) ∧
    (∀ (s : TaskStore) (task_id : Int) (title description : Option String)
       (completed : Option Bool) (priority : Option Priority)
       (tags : Option (List String)) (due_date : Option DateTime)
       (recurrence : Option Recurrence) (now : DateTime) (t1 : Task) (s1 : TaskStore),
      s.update task_id title description completed priority tags due_date recurrence now =
        .ok (t1, s1) →
      s1.tasks.map Task.id = s.tasks.map Task.id) ∧
    (∀ (s : TaskStore) (title description : String) (priority : Priority)
       (tags : List String) (due_date : Option DateTime) (recurrence : Recurrence)
       (now : DateTime) (t1 : Task) (s1 : TaskStore),
      s.add title description priority tags due_date recurrence now = .ok (t1, s1) →
      s1.tasks.map Task.id = s.tasks.map Task.id ++ [s.next_id]) ∧
    (∀ (s : TaskStore) (task_id : Int) (b : Bool) (s1 : TaskStore),
      s.delete task_id = .ok (b, s1) →
      s1.tasks.map Task.id = (List.range s1.tasks.length).map (fun k : Nat => (1 : Int) + (k : Int)) ∧
      s1.next_id = Int.ofNat s1.tasks.length + 1) := by
  refine ⟨?_, ?_, ?_, ?_, ?_, fun s task_id b s1 h => delete_reindexes h⟩
  · intro s task_id now t1 s1 h
    unfold TaskStore.mark_complete at h
    cases hg : s.get task_id with
    | error e => rw [hg] at h; injection h
    | ok t =>
      rw [hg] at h
      simp only at h
      injection h with h
      injection h with h1 h2
      subst h2
      exact replace_of_get_ids hg rfl
  · intro s task_id now t1 s1 h
    unfold TaskStore.mark_incomplete at h
    cases hg : s.get task_id with
    | error e => rw [hg] at h; injection h
    | ok t =>
      rw [hg] at h
      simp only at h
      injection h with h
      injection h with h1 h2
      subst h2
      exact replace_of_get_ids hg rfl
  · intro s task_id now t1 s1 h
    unfold TaskStore.toggle at h
    cases hg : s.get task_id with
    | error e => rw [hg] at h; injection h
    | ok t =>
      rw [hg] at h
      simp only at h
      injection h with h
      injection h with h1 h2
      subst h2
      exact replace_of_get_ids hg rfl
  · intro s task_id title description completed priority tags due_date recurrence now
      t1 s1 h
    unfold TaskStore.update at h
    cases hg : s.get task_id with
    | error e => rw [hg] at h; injection h
    | ok t =>
      rw [hg] at h
      split_ifs at h
      all_goals
        first
        | exact Except.noConfusion h
        | (injection h with h
           injection h with h1 h2
           subst h2
           exact replace_of_get_ids hg rfl)
  · intro s title description priority tags due_date recurrence now t1 s1 h
    unfold TaskStore.add at h
    split_ifs at h
    all_goals
      first
      | exact Except.noConfusion h
      | (injection h with h
         injection h with h1 h2
         subst h2
         simp)

/-- C4 witness: on the two-task store, `mark_complete` leaves the ids `[1,
2]` unchanged, while deleting task 1 leaves the survivor renumbered to id 1
with the counter reset to 2. -/
theorem C4_witness :
    (TaskStore.replace c4Store 1
        { c4TaskA with completed := true, updated_at := some c3Now }).tasks.map Task.id =
      c4Store.tasks.map Task.id ∧
    (⟨[{ c4TaskB with id := 1 }], 2⟩ : TaskStore).tasks.map Task.id =
      (List.range (⟨[{ c4TaskB with id := 1 }], 2⟩ : TaskStore).tasks.length).map
        (fun k : Nat => (1 : Int) + (k : Int)) ∧
    (⟨[{ c4TaskB with id := 1 }], 2⟩ : TaskStore).next_id =
      Int.ofNat (⟨[{ c4TaskB with id := 1 }], 2⟩ : TaskStore).tasks.length + 1 :=
  ⟨C4_ids_reindexed_on_delete.1 c4Store 1 c3Now
     { c4TaskA with completed := true, updated_at := some c3Now }
     (TaskStore.replace c4Store 1
       { c4TaskA with completed := true, updated_at := some c3Now }) (by decide),
   C4_ids_reindexed_on_delete.2.2.2.2.2 c4Store 1 true
     ⟨[{ c4TaskB with id := 1 }], 2⟩ (by decide)⟩

/-- C5: creating a task with a non-NONE recurrence and no due date raises
`ValidationError`, and updating a task to a non-NONE recurrence with no due
date in either the update or the existing task raises `ValidationError`; in
both failure cases the store is returned unchanged (no task mutated). -/
theorem C5_recurring_requires_due :
    (∀ (s : TaskStore) (title description : String) (priority : Priority)
       (tags : List String) (recurrence : Recurrence) (now : DateTime),
       recurrence ≠ .NONE →
       ∃ msg, TaskService.add_task_with_recurrence s title description priority tags
           none recurrence now = (.error (.validationError msg), s)) ∧
    (∀ (s : TaskStore) (task_id : Int) (title description : Option String)
       (completed : Option Bool) (priority : Option Priority)
       (tags : Option (List String)) (r : Recurrence) (now : DateTime) (t : Task),
       s.get task_id = .ok t → t.due_date = none → r ≠ .NONE →
       ∃ msg, TaskService.update_task_with_recurrence s task_id title description
           completed priority tags none (some r) now =
         (.error (.validationError msg), s)) := by
  constructor
  · intro s title description priority tags recurrence now hr
    unfold TaskService.add_task_with_recurrence
    dsimp only
    split_ifs with h1 h2 h3 h4
    · exact ⟨_, rfl⟩
    · exact ⟨_, rfl⟩
    · exact ⟨_, rfl⟩
    · exact ⟨_, rfl⟩
    · exact absurd (by simp [bne_iff_ne, hr]) h4
  · intro s task_id title description completed priority tags r now t hget hdue hr
    unfold TaskService.update_task_with_recurrence
    split_ifs with h1 h2 h3 h4
    · exact ⟨_, rfl⟩
    · exact ⟨_, rfl⟩
    · exact ⟨_, rfl⟩
    · exact ⟨_, rfl⟩
    · simp [hget, hdue]
    · next hc => exact absurd (by simp [bne_iff_ne, hr]) hc

/-- C5 witness: adding a daily-recurring task without a due date fails with
`ValidationError` leaving the store unchanged, and setting a weekly
recurrence on the stored task that has no due date fails the same way. -/
theorem C5_witness :
    (∃ msg, TaskService.add_task_with_recurrence c2Store "Recurring" "" .NONE [] none
        .DAILY c3Now = (.error (.validationError msg), c2Store)) ∧
    (∃ msg, TaskService.update_task_with_recurrence c4Store 1 none none none none none
        none (some .WEEKLY) c3Now = (.error (.validationError msg), c4Store)) :=
  ⟨C5_recurring_requires_due.1 c2Store "Recurring" "" .NONE [] .DAILY c3Now (by decide),
   C5_recurring_requires_due.2 c4Store 1 none none none none none .WEEKLY c3Now c4TaskA
     (by decide) rfl (by decide)⟩

/-- C10: every service operation taking a task id rejects a non-positive id
with `ValidationError` ("Invalid task ID") uniformly in the store (so the
store is never consulted) and returns the store unchanged; consequently a
not-found error is impossible for non-positive ids. -/
theorem C10_nonpositive_id_guard :
    ∀ (s : TaskStore) (task_id : Int) (now : DateTime), task_id ≤ 0 →
      TaskService.get_task s task_id = (.error (.validationError "Invalid task ID"), s) ∧
      (∀ (title description : Option String) (completed : Option Bool)
         (priority : Option Priority) (tags : Option (List String))
         (due_date : Option DateTime),
        TaskService.update_task s task_id title description completed priority tags
          due_date now = (.error (.validationError "Invalid task ID"), s)) ∧
      TaskService.delete_task s task_id =
        (.error (.validationError "Invalid task ID"), s) ∧
      TaskService.toggle_task_completion s task_id now =
        (.error (.validationError "Invalid task ID"), s) ∧
      TaskService.mark_task_complete s task_id now =
        (.error (.validationError "Invalid task ID"), s) ∧
      TaskService.mark_task_incomplete s task_id now =
        (.error (.validationError "Invalid task ID"), s) ∧
      (∀ i : Int, (TaskService.get_task s task_id).1 ≠ .error (.taskNotFoundError i)) := by
  intro s task_id now h
  have g1 : TaskService.get_task s task_id =
      (.error (.validationError "Invalid task ID"), s) := by
    unfold TaskService.get_task
    rw [if_pos h]
  refine ⟨g1, ?_, ?_, ?_, ?_, ?_, ?_⟩
  · intro title description completed priority tags due_date
    unfold TaskService.update_task
    rw [if_pos h]
  · unfold TaskService.delete_task
    rw [if_pos h]
  · unfold TaskService.toggle_task_completion
    rw [if_pos h]
  · unfold TaskService.mark_task_complete
    rw [if_pos h]
  · unfold TaskService.mark_task_incomplete
    rw [if_pos h]
  · intro i
    rw [g1]
    simp

/-- C10 witness: the guard instantiated at id 0 and id -5 on the two-task
store: the operations return the `ValidationError` with the store unchanged. -/
theorem C10_witness :
    TaskService.get_task c4Store 0 =
      (.error (.validationError "Invalid task ID"), c4Store) ∧
    TaskService.delete_task c4Store (-5) =
      (.error (.validationError "Invalid task ID"), c4Store) ∧
    TaskService.mark_task_complete c4Store 0 c3Now =
      (.error (.validationError "Invalid task ID"), c4Store) ∧
    TaskService.mark_task_incomplete c4Store 0 c3Now =
      (.error (.validationError "Invalid task ID"), c4Store) ∧
    TaskService.toggle_task_completion c4Store (-5) c3Now =
      (.error (.validationError "Invalid task ID"), c4Store) :=
  ⟨(C10_nonpositive_id_guard c4Store 0 c3Now (by decide)).1,
   (C10_nonpositive_id_guard c4Store (-5) c3Now (by decide)).2.2.1,
   (C10_nonpositive_id_guard c4Store 0 c3Now (by decide)).2.2.2.2.1,
   (C10_nonpositive_id_guard c4Store 0 c3Now (by decide)).2.2.2.2.2.1,
   (C10_nonpositive_id_guard c4Store (-5) c3Now (by decide)).2.2.2.1⟩

end Todo







